import Mathlib

/-!
firewall3 `defaults.c`: default ruleset compiler and two-pass flush.

A shallow embedding of `src/defaults.c`.

Conventions of the embedding.

* The output sink `fw3_pr` is an append-only list of lines.  A line is the text
  written up to, and not including, its terminating newline.  Every function
  that prints takes the lines written so far and returns them extended, in the
  order of the `fw3_pr` calls of the source.
* A `printf` format holding exactly one `%s` and ending in a newline is the
  pair of the text before and after the `%s` (`fw3_fmt`).
* `warn_elem` appends a pair (element name, message) to a list of warnings.
* Declarations that live in the headers and sibling files of the repository
  (the enums, the `fw3_defaults` record, `setbit`/`hasbit`, `fw3_is_family`,
  `fw3_parse_options`, the statefile entry) are not part of `defaults.c`; each
  is marked below.
-/

namespace Fw3

set_option linter.unusedVariables false

/-! ## Enumerations and records declared outside `defaults.c` -/

/-- Modelled from the spec: `enum fw3_table` (declared in a header outside
`defaults.c`); the spec lists the tables Filter, Nat, Mangle, Raw. -/
inductive fw3_table where
  | FILTER | NAT | MANGLE | RAW
  deriving DecidableEq, Repr

/-- Modelled from the spec: `enum fw3_family` (declared in a header outside
`defaults.c`); the spec lists the families Any, V4, V6. -/
inductive fw3_family where
  | ANY | V4 | V6
  deriving DecidableEq, Repr

/-- Modelled from the spec: `enum fw3_default`, the feature an entry may
require (declared in a header outside `defaults.c`); the spec lists None,
CustomChains, SynFlood. -/
inductive fw3_default where
  | UNSPEC | CUSTOM_CHAINS | SYN_FLOOD
  deriving DecidableEq, Repr

/-- Modelled from the spec: `enum fw3_target` (declared in a header outside
`defaults.c`).  The spec gives `{Unspecified, Accept, Drop, Reject, …}` with
the order Unspecified < Accept < Drop < Reject; the three further values
stand for the `…` and fill the seven entries of the `policy` table of
`fw3_print_default_chains`. -/
inductive fw3_target where
  | UNSPEC | ACCEPT | DROP | REJECT | OTHER4 | OTHER5 | OTHER6
  deriving DecidableEq, Repr

/-- Modelled from the spec: the rank of a target in the enum order
(Unspecified < Accept < Drop < Reject < the remaining values). -/
def fw3_target.rank : fw3_target → Nat
  | .UNSPEC => 0
  | .ACCEPT => 1
  | .DROP => 2
  | .REJECT => 3
  | .OTHER4 => 4
  | .OTHER5 => 5
  | .OTHER6 => 6

/-- Modelled from the spec: a marker of the flag set, either an address
family (`FW3_FAMILY_*`) or a feature (`FW3_DEFAULT_*`); the numeric bit
positions are declared outside `defaults.c`, the spec treats the markers as
distinct members of a set. -/
inductive fw3_flag where
  | family (f : fw3_family)
  | feature (d : fw3_default)
  deriving DecidableEq, Repr

/-- Modelled from the spec: the `flags` bit field, "a set of family/feature
markers", kept as the list of the markers that are set. -/
abbrev fw3_flags := List fw3_flag

/-- Modelled from the spec: the macro `setbit(field, flag)` (defined outside
`defaults.c`) adds a marker to the set. -/
def setbit (flags : fw3_flags) (b : fw3_flag) : fw3_flags :=
  if b ∈ flags then flags else flags ++ [b]

/-- Modelled from the spec: the macro `hasbit(field, flag)` (defined outside
`defaults.c`) tests whether a marker is present in the set. -/
def hasbit (flags : fw3_flags) (b : fw3_flag) : Bool :=
  decide (b ∈ flags)

/-- Modelled from the spec: `struct fw3_limit` (declared outside
`defaults.c`), `{rate: integer, burst: integer}`. -/
structure fw3_limit where
  rate : Int
  burst : Int
  deriving DecidableEq, Repr

/-- Modelled from the spec: `struct fw3_defaults` (declared outside
`defaults.c`); the fields are those named by `default_opts` and by the code of
`defaults.c`. -/
structure fw3_defaults where
  policy_input : fw3_target
  policy_output : fw3_target
  policy_forward : fw3_target
  drop_invalid : Bool
  syn_flood : Bool
  syn_flood_rate : fw3_limit
  tcp_syncookies : Bool
  tcp_ecn : Bool
  tcp_westwood : Bool
  tcp_window_scaling : Bool
  accept_redirects : Bool
  accept_source_route : Bool
  custom_chains : Bool
  disable_ipv6 : Bool
  flags : fw3_flags
  deriving DecidableEq, Repr

/-- The initially empty (zero-filled) `state->defaults`. -/
def fw3_defaults.empty : fw3_defaults :=
  { policy_input := .UNSPEC, policy_output := .UNSPEC, policy_forward := .UNSPEC,
    drop_invalid := false, syn_flood := false,
    syn_flood_rate := { rate := 0, burst := 0 },
    tcp_syncookies := false, tcp_ecn := false, tcp_westwood := false,
    tcp_window_scaling := false, accept_redirects := false,
    accept_source_route := false, custom_chains := false,
    disable_ipv6 := false, flags := [] }

/-! ## The chain catalogs (`defaults.c`, lines 22-61) -/

/-- The record `struct chain`. -/
structure chain where
  family : fw3_family
  table : fw3_table
  flag : fw3_default
  name : String
  deriving DecidableEq, Repr

/-- The macro `C(f, tbl, def, name)`. -/
def C (f : fw3_family) (tbl : fw3_table) (d : fw3_default) (name : String) : chain :=
  { family := f, table := tbl, flag := d, name := name }

/-- The catalog `default_chains[]`. -/
def default_chains : List chain := [
  C .ANY .FILTER .UNSPEC        "delegate_input",
  C .ANY .FILTER .UNSPEC        "delegate_output",
  C .ANY .FILTER .UNSPEC        "delegate_forward",
  C .ANY .FILTER .CUSTOM_CHAINS "input_rule",
  C .ANY .FILTER .CUSTOM_CHAINS "output_rule",
  C .ANY .FILTER .CUSTOM_CHAINS "forwarding_rule",
  C .ANY .FILTER .UNSPEC        "reject",
  C .ANY .FILTER .SYN_FLOOD     "syn_flood",

  C .V4  .NAT    .UNSPEC        "delegate_prerouting",
  C .V4  .NAT    .UNSPEC        "delegate_postrouting",
  C .V4  .NAT    .CUSTOM_CHAINS "prerouting_rule",
  C .V4  .NAT    .CUSTOM_CHAINS "postrouting_rule",

  C .ANY .MANGLE .UNSPEC        "mssfix",
  C .ANY .RAW    .UNSPEC        "notrack" ]

/-- The catalog `toplevel_rules[]`. -/
def toplevel_rules : List chain := [
  C .ANY .FILTER .UNSPEC        "INPUT -j delegate_input",
  C .ANY .FILTER .UNSPEC        "OUTPUT -j delegate_output",
  C .ANY .FILTER .UNSPEC        "FORWARD -j delegate_forward",

  C .V4  .NAT    .UNSPEC        "PREROUTING -j delegate_prerouting",
  C .V4  .NAT    .UNSPEC        "POSTROUTING -j delegate_postrouting",

  C .ANY .MANGLE .UNSPEC        "FORWARD -j mssfix",
  C .ANY .RAW    .UNSPEC        "PREROUTING -j notrack" ]

/-! ## `print_chains` (`defaults.c`, lines 88-113) -/

/-- A `printf` format with exactly one `%s`, ending in a newline: the text
before the `%s` and the text between the `%s` and the newline. -/
structure fw3_fmt where
  pre : String
  post : String
  deriving DecidableEq, Repr

/-- The call `fw3_pr(fmt, s)` for a one-`%s` format: the line it writes. -/
def fw3_fmt.pr (fmt : fw3_fmt) (s : String) : String :=
  fmt.pre ++ s ++ fmt.post

/-- Modelled from the spec: the macro `fw3_is_family(c, family)` (defined
outside `defaults.c`): an entry of family Any passes for every requested
family, otherwise the requested family must equal the entry's. -/
def fw3_is_family (c : chain) (family : fw3_family) : Bool :=
  c.family == .ANY || c.family == family

/-- The loop of `print_chains`: `chains` is the part of the array from the
cursor `c` on, `out` the lines written so far and `rv` the return value so
far. -/
def print_chains_loop (table : fw3_table) (family : fw3_family) (fmt : fw3_fmt)
    (flags : fw3_flags) : List chain → List String → Bool → List String × Bool
  | [], out, rv => (out, rv)
  | c :: rest, out, rv =>
    if !fw3_is_family c family then
      print_chains_loop table family fmt flags rest out rv
    else if c.table != table then
      print_chains_loop table family fmt flags rest out rv
    else if c.flag != .UNSPEC && !hasbit flags (.feature c.flag) then
      print_chains_loop table family fmt flags rest out rv
    else
      print_chains_loop table family fmt flags rest (out ++ [fmt.pr c.name]) true

/-- The function `print_chains`: the lines written so far extended by one
line per selected entry, and the return value `rv`. -/
def print_chains (table : fw3_table) (family : fw3_family) (fmt : fw3_fmt)
    (flags : fw3_flags) (chains : List chain) (out : List String) :
    List String × Bool :=
  print_chains_loop table family fmt flags chains out false

/-! ## Configuration sections and the option table (`defaults.c`, lines 63-85) -/

/-- Modelled from the spec: a parsed option value.  Turning the raw text of
an option into a typed value is the work of the external option parser; a
section reaches this model with its values already typed (policy enum,
boolean, rate limit, integer). -/
inductive uci_value where
  | target (t : fw3_target)
  | bool (b : Bool)
  | limit (rate : Int)
  | int (n : Int)
  deriving DecidableEq, Repr

/-- Modelled from the spec: one option of a configuration section. -/
structure uci_option where
  name : String
  value : uci_value
  deriving DecidableEq, Repr

/-- Modelled from the spec: a configuration section (`struct uci_section`
with its `struct uci_element`): the element name used by warnings, the section
type and the options. -/
structure uci_section where
  name : String
  type : String
  options : List uci_option
  deriving DecidableEq, Repr

/-- Modelled from the spec: a configuration package, the ordered list
`p->sections`. -/
abbrev uci_package := List uci_section

/-- The second argument of `FW3_OPT`: the kind of value an option takes. -/
inductive fw3_opt_type where
  | target | bool | limit | int
  deriving DecidableEq, Repr

/-- The fourth argument of `FW3_OPT`: the member of `struct fw3_defaults` an
option is stored in. -/
inductive fw3_opt_member where
  | policy_input | policy_forward | policy_output
  | drop_invalid | syn_flood | syn_flood_rate | syn_flood_rate_burst
  | tcp_syncookies | tcp_ecn | tcp_westwood | tcp_window_scaling
  | accept_redirects | accept_source_route | custom_chains | disable_ipv6
  deriving DecidableEq, Repr

/-- The record `struct fw3_option` as built by `FW3_OPT`. -/
structure fw3_option where
  name : String
  type : fw3_opt_type
  member : fw3_opt_member
  deriving DecidableEq, Repr

/-- The macro `FW3_OPT(name, type, structure, member)` for the structure
`defaults`. -/
def FW3_OPT (name : String) (type : fw3_opt_type) (member : fw3_opt_member) :
    fw3_option :=
  { name := name, type := type, member := member }

/-- The table `default_opts[]`. -/
def default_opts : List fw3_option := [
  FW3_OPT "input"               .target .policy_input,
  FW3_OPT "forward"             .target .policy_forward,
  FW3_OPT "output"              .target .policy_output,

  FW3_OPT "drop_invalid"        .bool   .drop_invalid,

  FW3_OPT "syn_flood"           .bool   .syn_flood,
  FW3_OPT "synflood_protect"    .bool   .syn_flood,
  FW3_OPT "synflood_rate"       .limit  .syn_flood_rate,
  FW3_OPT "synflood_burst"      .int    .syn_flood_rate_burst,

  FW3_OPT "tcp_syncookies"      .bool   .tcp_syncookies,
  FW3_OPT "tcp_ecn"             .bool   .tcp_ecn,
  FW3_OPT "tcp_westwood"        .bool   .tcp_westwood,
  FW3_OPT "tcp_window_scaling"  .bool   .tcp_window_scaling,

  FW3_OPT "accept_redirects"    .bool   .accept_redirects,
  FW3_OPT "accept_source_route" .bool   .accept_source_route,

  FW3_OPT "custom_chains"       .bool   .custom_chains,
  FW3_OPT "disable_ipv6"        .bool   .disable_ipv6 ]

/-- Modelled from the spec: the store of one parsed value into the member an
option names (part of `fw3_parse_options`, which is outside `defaults.c`).  A
value whose kind is not the kind the option takes is not stored. -/
def fw3_store (defs : fw3_defaults) (opt : fw3_option) (v : uci_value) : fw3_defaults :=
  match opt.type, opt.member, v with
  | .target, .policy_input, .target t => { defs with policy_input := t }
  | .target, .policy_forward, .target t => { defs with policy_forward := t }
  | .target, .policy_output, .target t => { defs with policy_output := t }
  | .bool, .drop_invalid, .bool b => { defs with drop_invalid := b }
  | .bool, .syn_flood, .bool b => { defs with syn_flood := b }
  | .limit, .syn_flood_rate, .limit r =>
    { defs with syn_flood_rate := { defs.syn_flood_rate with rate := r } }
  | .int, .syn_flood_rate_burst, .int n =>
    { defs with syn_flood_rate := { defs.syn_flood_rate with burst := n } }
  | .bool, .tcp_syncookies, .bool b => { defs with tcp_syncookies := b }
  | .bool, .tcp_ecn, .bool b => { defs with tcp_ecn := b }
  | .bool, .tcp_westwood, .bool b => { defs with tcp_westwood := b }
  | .bool, .tcp_window_scaling, .bool b => { defs with tcp_window_scaling := b }
  | .bool, .accept_redirects, .bool b => { defs with accept_redirects := b }
  | .bool, .accept_source_route, .bool b => { defs with accept_source_route := b }
  | .bool, .custom_chains, .bool b => { defs with custom_chains := b }
  | .bool, .disable_ipv6, .bool b => { defs with disable_ipv6 := b }
  | _, _, _ => defs

/-- Modelled from the spec: `fw3_parse_options` (the external option parser,
outside `defaults.c`): the options of the section are taken in order; an
option whose name is in the table is stored in the member the table names,
any other option leaves the record as it is. -/
def fw3_parse_options (defs : fw3_defaults) (opts : List fw3_option)
    (s : uci_section) : fw3_defaults :=
  s.options.foldl
    (fun d o =>
      match opts.find? (fun opt => opt.name == o.name) with
      | some opt => fw3_store d opt o.value
      | none => d)
    defs

/-! ## Warnings and `check_policy` (`defaults.c`, lines 115-128) -/

/-- Modelled from the spec: a diagnostic, the pair (location context,
message) the sink receives. -/
structure warning where
  elem : String
  msg : String
  deriving DecidableEq, Repr

/-- Modelled from the spec: the macro `warn_elem(e, msg)` (defined outside
`defaults.c`) hands the element and the formatted message to the sink. -/
def warn_elem (e : uci_section) (msg : String) (warns : List warning) : List warning :=
  warns ++ [{ elem := e.name, msg := msg }]

/-- The pointer argument `enum fw3_target *pol` of `check_policy`: which of
the three policy members of the record it points to. -/
inductive policy_ptr where
  | policy_input | policy_output | policy_forward
  deriving DecidableEq, Repr

/-- The read `*pol`. -/
def policy_ptr.get (pol : policy_ptr) (defs : fw3_defaults) : fw3_target :=
  match pol with
  | .policy_input => defs.policy_input
  | .policy_output => defs.policy_output
  | .policy_forward => defs.policy_forward

/-- The write `*pol = t`. -/
def policy_ptr.set (pol : policy_ptr) (defs : fw3_defaults) (t : fw3_target) :
    fw3_defaults :=
  match pol with
  | .policy_input => { defs with policy_input := t }
  | .policy_output => { defs with policy_output := t }
  | .policy_forward => { defs with policy_forward := t }

/-- The function `check_policy(e, pol, name)`, on the record `pol` points
into and the warnings issued so far. -/
def check_policy (e : uci_section) (pol : policy_ptr) (name : String)
    (st : fw3_defaults × List warning) : fw3_defaults × List warning :=
  if pol.get st.1 = .UNSPEC then
    (pol.set st.1 .DROP,
      warn_elem e ("has no " ++ name ++ " policy specified, defaulting to DROP") st.2)
  else if (pol.get st.1).rank > fw3_target.DROP.rank then
    (pol.set st.1 .DROP,
      warn_elem e ("has invalid " ++ name ++ " policy, defaulting to DROP") st.2)
  else
    st

/-! ## `fw3_load_defaults` (`defaults.c`, lines 130-176) -/

/-- The variables the section loop of `fw3_load_defaults` carries: the
record `state->defaults`, the local `seen` and the warnings issued. -/
structure load_state where
  defs : fw3_defaults
  seen : Bool
  warns : List warning
  deriving DecidableEq, Repr

/-- The body of the `uci_foreach_element` loop of `fw3_load_defaults` for one
section.  The source never assigns `seen` inside the loop, so the body hands
it on as it found it. -/
def load_section (st : load_state) (s : uci_section) : load_state :=
  if s.type != "defaults" then
    st
  else if st.seen then
    { st with warns := warn_elem s "ignoring duplicate section" st.warns }
  else
    let defs := fw3_parse_options st.defs default_opts s
    let r := check_policy s .policy_input "input" (defs, st.warns)
    let r := check_policy s .policy_output "output" r
    let r := check_policy s .policy_forward "forward" r
    let defs := r.1
    let defs :=
      if !defs.disable_ipv6 then
        { defs with flags := setbit defs.flags (.family .V6) }
      else defs
    let defs :=
      if defs.custom_chains then
        { defs with flags := setbit defs.flags (.feature .CUSTOM_CHAINS) }
      else defs
    let defs :=
      if defs.syn_flood then
        { defs with flags := setbit defs.flags (.feature .SYN_FLOOD) }
      else defs
    { defs := defs, seen := st.seen, warns := r.2 }

/-- The function `fw3_load_defaults(state, p)`: from the record
`state->defaults` on entry and the package, the record on return and the
warnings issued. -/
def fw3_load_defaults (state : fw3_defaults) (p : uci_package) :
    fw3_defaults × List warning :=
  let defs := { state with
    syn_flood_rate := { rate := 25, burst := 50 },
    tcp_syncookies := true,
    tcp_window_scaling := true,
    custom_chains := true }
  let defs := { defs with flags := setbit defs.flags (.family .V4) }
  let st := p.foldl load_section { defs := defs, seen := false, warns := [] }
  (st.defs, st.warns)

/-! ## The generation phases (`defaults.c`, lines 178-289) -/

/-- The local table `policy[]` of `fw3_print_default_chains`. -/
def policy : List String := [
  "(bug)",
  "ACCEPT",
  "DROP",
  "DROP",
  "(bug)",
  "(bug)",
  "(bug)" ]

/-- The read `policy[t]`; every target indexes inside the table. -/
def policy_name (t : fw3_target) : String :=
  policy.get ⟨t.rank, by cases t <;> decide⟩

/-- The format `":%s - [0:0]\n"`. -/
def fmt_chain : fw3_fmt := { pre := ":", post := " - [0:0]" }

/-- The format `"-A %s\n"`. -/
def fmt_append : fw3_fmt := { pre := "-A ", post := "" }

/-- The format `"-D %s\n"`. -/
def fmt_delete : fw3_fmt := { pre := "-D ", post := "" }

/-- The format `"-F %s\n"`. -/
def fmt_flush : fw3_fmt := { pre := "-F ", post := "" }

/-- The format `"-X %s\n"`. -/
def fmt_remove : fw3_fmt := { pre := "-X ", post := "" }

/-- The function `fw3_print_default_chains(table, family, state)`, on the
record `state->defaults`. -/
def fw3_print_default_chains (table : fw3_table) (family : fw3_family)
    (defs : fw3_defaults) (out : List String) : List String :=
  let out :=
    if table = .FILTER then
      let out := out ++ [":INPUT " ++ policy_name defs.policy_input ++ " [0:0]"]
      let out := out ++ [":FORWARD " ++ policy_name defs.policy_forward ++ " [0:0]"]
      out ++ [":OUTPUT " ++ policy_name defs.policy_output ++ " [0:0]"]
    else out
  (print_chains table family fmt_chain defs.flags default_chains out).1

/-- The local table `chains[]` of `fw3_print_default_head_rules`. -/
def chains : List String := [
  "input",
  "output",
  "forward" ]

/-- The `for` loop of `fw3_print_default_head_rules` over `chains[i]`. -/
def head_rules_loop (defs : fw3_defaults) : List String → List String → List String
  | [], out => out
  | c :: rest, out =>
    let out := out ++
      ["-A delegate_" ++ c ++ " -m conntrack --ctstate RELATED,ESTABLISHED -j ACCEPT"]
    let out :=
      if defs.drop_invalid then
        out ++ ["-A delegate_" ++ c ++ " -m conntrack --ctstate INVALID -j DROP"]
      else out
    head_rules_loop defs rest out

/-- The function `fw3_print_default_head_rules(table, family, state)`.  The
helper `fw3_format_limit`, which writes the limit match in the middle of the
first `syn_flood` line, is outside `defaults.c`; the text it writes for a limit
is the parameter `fw3_format_limit`. -/
def fw3_print_default_head_rules (fw3_format_limit : fw3_limit → String)
    (table : fw3_table) (family : fw3_family) (defs : fw3_defaults)
    (out : List String) : List String :=
  let out := (print_chains table family fmt_append [] toplevel_rules out).1
  match table with
  | .FILTER =>
    let out := out ++ ["-A delegate_input -i lo -j ACCEPT"]
    let out := out ++ ["-A delegate_output -o lo -j ACCEPT"]
    let out :=
      if defs.custom_chains then
        let out := out ++ ["-A delegate_input -j input_rule"]
        let out := out ++ ["-A delegate_output -j output_rule"]
        out ++ ["-A delegate_forward -j forwarding_rule"]
      else out
    let out := head_rules_loop defs chains out
    let out :=
      if defs.syn_flood then
        let out := out ++
          ["-A syn_flood -p tcp --syn" ++ fw3_format_limit defs.syn_flood_rate ++
            " -j RETURN"]
        let out := out ++ ["-A syn_flood -j DROP"]
        out ++ ["-A delegate_input -p tcp --syn -j syn_flood"]
      else out
    let out := out ++ ["-A reject -p tcp -j REJECT --reject-with tcp-reset"]
    out ++ ["-A reject -j REJECT --reject-with port-unreach"]
  | .NAT =>
    if defs.custom_chains then
      let out := out ++ ["-A delegate_prerouting -j prerouting_rule"]
      out ++ ["-A delegate_postrouting -j postrouting_rule"]
    else out
  | _ => out

/-- The function `fw3_print_default_tail_rules(table, family, state)`. -/
def fw3_print_default_tail_rules (table : fw3_table) (family : fw3_family)
    (defs : fw3_defaults) (out : List String) : List String :=
  if table != .FILTER then
    out
  else
    let out :=
      if defs.policy_input = .REJECT then out ++ ["-A delegate_input -j reject"]
      else out
    let out :=
      if defs.policy_output = .REJECT then out ++ ["-A delegate_output -j reject"]
      else out
    if defs.policy_forward = .REJECT then out ++ ["-A delegate_forward -j reject"]
    else out

/-! ## The flush protocol (`defaults.c`, lines 291-338) -/

/-- Modelled from the spec: the kind tag of a statefile entry (`enum` declared
outside `defaults.c`); only the Defaults kind is told apart here. -/
inductive fw3_type where
  | DEFAULTS
  | OTHER (tag : Nat)
  deriving DecidableEq, Repr

/-- Modelled from the spec: `struct fw3_statefile_entry` (declared outside
`defaults.c`): the kind tag and the indexed array `flags[]` of recorded flag
sets. -/
structure fw3_statefile_entry where
  type : fw3_type
  flags : Nat → fw3_flags

/-- The function `reset_policy(table)`. -/
def reset_policy (table : fw3_table) (out : List String) : List String :=
  if table != .FILTER then
    out
  else
    let out := out ++ [":INPUT ACCEPT [0:0]"]
    let out := out ++ [":OUTPUT ACCEPT [0:0]"]
    out ++ [":FORWARD ACCEPT [0:0]"]

/-- The body of the `list_for_each_entry` loop of `fw3_flush_rules` for one
statefile entry. -/
def flush_entry (table : fw3_table) (family : fw3_family) (pass2 : Bool)
    (out : List String) (e : fw3_statefile_entry) : List String :=
  if e.type != .DEFAULTS then
    out
  else if !pass2 then
    let out := reset_policy table out
    let out := (print_chains table family fmt_delete (e.flags 0) toplevel_rules out).1
    (print_chains table family fmt_flush (e.flags 0) default_chains out).1
  else
    (print_chains table family fmt_remove (e.flags 0) default_chains out).1

/-- The function `fw3_flush_rules(table, family, pass2, statefile)`. -/
def fw3_flush_rules (table : fw3_table) (family : fw3_family) (pass2 : Bool)
    (statefile : List fw3_statefile_entry) (out : List String) : List String :=
  statefile.foldl (flush_entry table family pass2) out

/-- The function `fw3_flush_all(table)`. -/
def fw3_flush_all (table : fw3_table) (out : List String) : List String :=
  let out := reset_policy table out
  let out := out ++ ["-F"]
  out ++ ["-X"]

/-! ## The filter predicate of the spec -/

/-- The predicate `applies(entry, family, table, activeFlags)` as the spec
words it: the table is the requested one, the entry's family is Any or the
requested family, and the required feature is None or present in the active
flags. -/
def applies (c : chain) (family : fw3_family) (table : fw3_table)
    (flags : fw3_flags) : Prop :=
  c.table = table ∧ (c.family = .ANY ∨ c.family = family) ∧
    (c.flag = .UNSPEC ∨ .feature c.flag ∈ flags)

instance (c : chain) (family : fw3_family) (table : fw3_table) (flags : fw3_flags) :
    Decidable (applies c family table flags) := by
  unfold applies; infer_instance

/-- The lines one call of `print_chains` on a catalog writes according to the
spec: one line per entry satisfying `applies`, in catalog order. -/
def applicable_lines (table : fw3_table) (family : fw3_family) (fmt : fw3_fmt)
    (flags : fw3_flags) (cat : List chain) : List String :=
  (cat.filter (fun c => decide (applies c family table flags))).map
    (fun c => fmt.pr c.name)

/-! ## Concrete inputs used by the checks below -/

/-- A package with a single, empty section of type "defaults". -/
def pkg_one_section : uci_package := [
  { name := "cfg01", type := "defaults", options := [] } ]

/-- The first section of `pkg_two_sections`: it sets the input policy to
ACCEPT. -/
def section_first : uci_section :=
  { name := "cfg01", type := "defaults",
    options := [{ name := "input", value := .target .ACCEPT }] }

/-- A second section of type "defaults": it sets the input policy to DROP,
turns SYN-flood protection on and custom chains off. -/
def section_second : uci_section :=
  { name := "cfg02", type := "defaults",
    options := [{ name := "input", value := .target .DROP },
                { name := "syn_flood", value := .bool true },
                { name := "custom_chains", value := .bool false }] }

/-- A package with two sections of type "defaults". -/
def pkg_two_sections : uci_package := [section_first, section_second]

/-- A package without any section of type "defaults". -/
def pkg_no_section : uci_package := [
  { name := "cfg01", type := "zone", options := [] } ]

/-- Scenario B of the spec as a section: custom chains off, SYN-flood
protection on with rate 10 and burst 20. -/
def section_scenario_b : uci_section :=
  { name := "cfg01", type := "defaults",
    options := [{ name := "custom_chains", value := .bool false },
                { name := "syn_flood", value := .bool true },
                { name := "synflood_rate", value := .limit 10 },
                { name := "synflood_burst", value := .int 20 }] }

/-- The Defaults of Scenario B: loaded from `section_scenario_b`. -/
def defaults_scenario_b : fw3_defaults :=
  (fw3_load_defaults .empty [section_scenario_b]).1

/-- The three policy reset lines of `reset_policy`. -/
def reset_lines : List String :=
  [":INPUT ACCEPT [0:0]", ":OUTPUT ACCEPT [0:0]", ":FORWARD ACCEPT [0:0]"]

/-- The lines `fw3_flush_rules` writes for one statefile entry according to
the spec of the per-entry step: nothing for an entry that is not of the
Defaults kind; in pass 1 the policy resets (table Filter), the delete lines of
the matching top-level jumps and the flush lines of the matching chains; in
pass 2 the removal lines of the matching chains. -/
def entry_lines (table : fw3_table) (family : fw3_family) (pass2 : Bool)
    (e : fw3_statefile_entry) : List String :=
  if e.type = .DEFAULTS then
    if pass2 then
      applicable_lines table family fmt_remove (e.flags 0) default_chains
    else
      (if table = .FILTER then reset_lines else []) ++
        applicable_lines table family fmt_delete (e.flags 0) toplevel_rules ++
        applicable_lines table family fmt_flush (e.flags 0) default_chains
  else []

/-- The number of entries of the Defaults kind in a statefile. -/
def defaults_entries (statefile : List fw3_statefile_entry) : Nat :=
  (statefile.filter (fun e => decide (e.type = .DEFAULTS))).length

/-- The three policies of a record are each Accept or Drop. -/
def policies_valid (defs : fw3_defaults) : Prop :=
  (defs.policy_input = .ACCEPT ∨ defs.policy_input = .DROP) ∧
  (defs.policy_output = .ACCEPT ∨ defs.policy_output = .DROP) ∧
  (defs.policy_forward = .ACCEPT ∨ defs.policy_forward = .DROP)

/-- The record `fw3_load_defaults` holds when it enters the section loop: the
built-in baselines written over the incoming record and the IPv4 marker
set. -/
def load_baseline (state : fw3_defaults) : fw3_defaults :=
  { state with
    syn_flood_rate := { rate := 25, burst := 50 },
    tcp_syncookies := true,
    tcp_window_scaling := true,
    custom_chains := true,
    flags := setbit state.flags (.family .V4) }

/-! ## Reading chain names off emitted lines -/

/-- The blank-separated words of a line. -/
def words (line : String) : List String :=
  (line.data.splitOn ' ').map String.mk

/-- The words that follow a `-j` in a list of words: the jump targets of a
rule.  `after_j` tells whether the word before the list was `-j`. -/
def jump_targets (after_j : Bool) : List String → List String
  | [] => []
  | w :: rest =>
    (if after_j then [w] else []) ++ jump_targets (w == "-j") rest

/-- The chain names that appear in a command line of the loader grammar: for
`-A`, `-D`, `-F` and `-X` lines the chain the command works on (the second
word) and every jump target; no name for any other line. -/
def line_chains (line : String) : List String :=
  match words line with
  | op :: ch :: rest =>
    if op = "-A" ∨ op = "-D" ∨ op = "-F" ∨ op = "-X" then
      ch :: jump_targets false rest
    else []
  | _ => []

/-- The built-in base chains of the packet filter, which the top-level jumps
are hooked into. -/
def base_chains : List String :=
  ["INPUT", "OUTPUT", "FORWARD", "PREROUTING", "POSTROUTING"]

/-- The built-in targets of the packet filter. -/
def builtin_targets : List String :=
  ["ACCEPT", "DROP", "RETURN", "REJECT"]

/-- The statefile entries of the Defaults kind, in statefile order. -/
def defaults_kind (statefile : List fw3_statefile_entry) : List fw3_statefile_entry :=
  statefile.filter (fun e => decide (e.type = .DEFAULTS))

/-- A statefile entry of the Defaults kind that records the given flags for
every index. -/
def defaults_entry (flags : fw3_flags) : fw3_statefile_entry :=
  { type := .DEFAULTS, flags := fun _ => flags }

/-- The lines `fw3_print_default_head_rules` writes after the top-level
jumps, by table: the `switch` of the function seen as a list of lines. -/
def head_rules_body (fw3_format_limit : fw3_limit → String) (table : fw3_table)
    (defs : fw3_defaults) : List String :=
  match table with
  | .FILTER =>
    ["-A delegate_input -i lo -j ACCEPT",
     "-A delegate_output -o lo -j ACCEPT"] ++
    (if defs.custom_chains then
      ["-A delegate_input -j input_rule",
       "-A delegate_output -j output_rule",
       "-A delegate_forward -j forwarding_rule"]
     else []) ++
    ["-A delegate_input -m conntrack --ctstate RELATED,ESTABLISHED -j ACCEPT"] ++
    (if defs.drop_invalid then
      ["-A delegate_input -m conntrack --ctstate INVALID -j DROP"] else []) ++
    ["-A delegate_output -m conntrack --ctstate RELATED,ESTABLISHED -j ACCEPT"] ++
    (if defs.drop_invalid then
      ["-A delegate_output -m conntrack --ctstate INVALID -j DROP"] else []) ++
    ["-A delegate_forward -m conntrack --ctstate RELATED,ESTABLISHED -j ACCEPT"] ++
    (if defs.drop_invalid then
      ["-A delegate_forward -m conntrack --ctstate INVALID -j DROP"] else []) ++
    (if defs.syn_flood then
      ["-A syn_flood -p tcp --syn" ++ fw3_format_limit defs.syn_flood_rate ++
         " -j RETURN",
       "-A syn_flood -j DROP",
       "-A delegate_input -p tcp --syn -j syn_flood"]
     else []) ++
    ["-A reject -p tcp -j REJECT --reject-with tcp-reset",
     "-A reject -j REJECT --reject-with port-unreach"]
  | .NAT =>
    if defs.custom_chains then
      ["-A delegate_prerouting -j prerouting_rule",
       "-A delegate_postrouting -j postrouting_rule"]
    else []
  | _ => []

/-! ## Lemmas on `print_chains` -/

theorem print_chains_loop_fst (table : fw3_table) (family : fw3_family) (fmt : fw3_fmt)
    (flags : fw3_flags) (cs : List chain) (out : List String) (rv : Bool) :
    (print_chains_loop table family fmt flags cs out rv).1 =
      out ++ applicable_lines table family fmt flags cs := by
  induction cs generalizing out rv with
  | nil => simp [print_chains_loop, applicable_lines]
  | cons c rest ih =>
    have hstep : applicable_lines table family fmt flags (c :: rest) =
        (if applies c family table flags then [fmt.pr c.name] else []) ++
          applicable_lines table family fmt flags rest := by
      unfold applicable_lines
      by_cases h : applies c family table flags <;> simp [List.filter_cons, h]
    rw [hstep]
    unfold print_chains_loop
    by_cases hf : fw3_is_family c family = true
    · by_cases ht : c.table = table
      · by_cases hb : c.flag = .UNSPEC ∨ fw3_flag.feature c.flag ∈ flags
        · have happ : applies c family table flags := by
            refine ⟨ht, ?_, hb⟩
            simpa [fw3_is_family] using hf
          have hcond : (c.flag != fw3_default.UNSPEC &&
              !hasbit flags (fw3_flag.feature c.flag)) = false := by
            rcases hb with hb | hb <;> simp [hasbit, hb]
          simp [hf, ht, hcond, happ, ih]
        · have happ : ¬ applies c family table flags := fun h => hb h.2.2
          have hcond : (c.flag != fw3_default.UNSPEC &&
              !hasbit flags (fw3_flag.feature c.flag)) = true := by
            simp only [not_or] at hb
            simp [hasbit, hb.1, hb.2]
          simp [hf, ht, hcond, happ, ih]
      · have happ : ¬ applies c family table flags := fun h => ht h.1
        simp [hf, ht, happ, ih]
    · have happ : ¬ applies c family table flags := by
        intro h
        apply hf
        simpa [fw3_is_family] using h.2.1
      simp [hf, happ, ih]

theorem print_chains_fst (table : fw3_table) (family : fw3_family) (fmt : fw3_fmt)
    (flags : fw3_flags) (cs : List chain) (out : List String) :
    (print_chains table family fmt flags cs out).1 =
      out ++ applicable_lines table family fmt flags cs := by
  unfold print_chains
  exact print_chains_loop_fst table family fmt flags cs out false

theorem fmt_pr_injective (fmt : fw3_fmt) (a b : String)
    (h : fmt.pr a = fmt.pr b) : a = b := by
  unfold fw3_fmt.pr at h
  have h2 := congrArg String.data h
  simp only [String.data_append] at h2
  have h3 := List.append_cancel_right h2
  have h4 := List.append_cancel_left h3
  exact String.ext h4

theorem applicable_lines_mem (table : fw3_table) (family : fw3_family) (fmt : fw3_fmt)
    (flags : fw3_flags) (cat : List chain) (line : String) :
    line ∈ applicable_lines table family fmt flags cat ↔
      ∃ c ∈ cat, applies c family table flags ∧ fmt.pr c.name = line := by
  unfold applicable_lines
  simp only [List.mem_map, List.mem_filter, decide_eq_true_eq]
  constructor
  · rintro ⟨c, ⟨hc, ha⟩, hl⟩
    exact ⟨c, hc, ha, hl⟩
  · rintro ⟨c, hc, ha, hl⟩
    exact ⟨c, ⟨hc, ha⟩, hl⟩

theorem default_chains_names_unique :
    ∀ a ∈ default_chains, ∀ b ∈ default_chains, a.name = b.name → a = b := by
  decide

theorem toplevel_rules_names_unique :
    ∀ a ∈ toplevel_rules, ∀ b ∈ toplevel_rules, a.name = b.name → a = b := by
  decide

theorem flush_entry_eq (table : fw3_table) (family : fw3_family) (pass2 : Bool)
    (out : List String) (e : fw3_statefile_entry) :
    flush_entry table family pass2 out e = out ++ entry_lines table family pass2 e := by
  unfold flush_entry entry_lines reset_policy reset_lines
  by_cases ht : e.type = .DEFAULTS
  · cases pass2
    · by_cases hf : table = .FILTER <;> simp [ht, hf, print_chains_fst]
    · simp [ht, print_chains_fst]
  · simp [ht]

theorem flush_rules_eq (table : fw3_table) (family : fw3_family) (pass2 : Bool)
    (statefile : List fw3_statefile_entry) (out : List String) :
    fw3_flush_rules table family pass2 statefile out =
      out ++ statefile.flatMap (entry_lines table family pass2) := by
  unfold fw3_flush_rules
  induction statefile generalizing out with
  | nil => simp
  | cons e rest ih =>
    rw [List.foldl_cons, ih, flush_entry_eq]
    simp [List.flatMap_cons, List.append_assoc]

theorem reset_line_not_applicable (family : fw3_family) (flags : fw3_flags)
    (line : String) (hl : line ∈ reset_lines) :
    line ∉ applicable_lines .FILTER family fmt_delete flags toplevel_rules ∧
    line ∉ applicable_lines .FILTER family fmt_flush flags default_chains := by
  have h1 : ∀ c ∈ toplevel_rules, ∀ l ∈ reset_lines, fmt_delete.pr c.name ≠ l := by
    decide
  have h2 : ∀ c ∈ default_chains, ∀ l ∈ reset_lines, fmt_flush.pr c.name ≠ l := by
    decide
  constructor
  · intro hm
    rw [applicable_lines_mem] at hm
    obtain ⟨c, hc, _, he⟩ := hm
    exact h1 c hc line hl he
  · intro hm
    rw [applicable_lines_mem] at hm
    obtain ⟨c, hc, _, he⟩ := hm
    exact h2 c hc line hl he

theorem entry_lines_count_reset (family : fw3_family) (e : fw3_statefile_entry)
    (line : String) (hl : line ∈ reset_lines) :
    List.count line (entry_lines .FILTER family false e) =
      if e.type = .DEFAULTS then 1 else 0 := by
  unfold entry_lines
  by_cases ht : e.type = .DEFAULTS
  · have hn := reset_line_not_applicable family (e.flags 0) line hl
    have hc : List.count line reset_lines = 1 := by
      simp only [reset_lines, List.mem_cons, List.mem_singleton, List.not_mem_nil,
        or_false] at hl
      rcases hl with h | h | h <;> subst h <;> decide
    simp [ht, List.count_append, hc, List.count_eq_zero.mpr hn.1,
      List.count_eq_zero.mpr hn.2]
  · simp [ht]

theorem flush_rules_count_reset (family : fw3_family)
    (statefile : List fw3_statefile_entry) (line : String) (hl : line ∈ reset_lines) :
    List.count line (fw3_flush_rules .FILTER family false statefile []) =
      defaults_entries statefile := by
  rw [flush_rules_eq, List.nil_append]
  unfold defaults_entries
  induction statefile with
  | nil => simp
  | cons e rest ih =>
    rw [List.flatMap_cons, List.count_append, ih, entry_lines_count_reset family e line hl]
    by_cases ht : e.type = .DEFAULTS
    · simp [ht, List.filter_cons, Nat.add_comm]
    · simp [ht, List.filter_cons]

/-! ## Lemmas on `fw3_load_defaults` -/

theorem check_policy_result (e : uci_section) (pol : policy_ptr) (n : String)
    (st : fw3_defaults × List warning) :
    (pol.get (check_policy e pol n st).1 = .ACCEPT ∨
      pol.get (check_policy e pol n st).1 = .DROP) ∧
    (∀ q : policy_ptr, q ≠ pol → q.get (check_policy e pol n st).1 = q.get st.1) ∧
    (check_policy e pol n st).1.flags = st.1.flags ∧
    (check_policy e pol n st).1.custom_chains = st.1.custom_chains ∧
    (check_policy e pol n st).1.syn_flood = st.1.syn_flood ∧
    (check_policy e pol n st).1.disable_ipv6 = st.1.disable_ipv6 := by
  unfold check_policy
  by_cases hu : pol.get st.1 = .UNSPEC
  · simp only [hu, if_true]
    refine ⟨by cases pol <;> simp [policy_ptr.get, policy_ptr.set], ?_, ?_, ?_, ?_, ?_⟩
    · intro q hq
      cases pol <;> cases q <;> first | exact absurd rfl hq | rfl
    all_goals cases pol <;> rfl
  · by_cases hr : fw3_target.DROP.rank < (pol.get st.1).rank
    · simp only [hu, if_false, gt_iff_lt, hr, if_true]
      refine ⟨by cases pol <;> simp [policy_ptr.get, policy_ptr.set], ?_, ?_, ?_, ?_, ?_⟩
      · intro q hq
        cases pol <;> cases q <;> first | exact absurd rfl hq | rfl
      all_goals cases pol <;> rfl
    · simp only [hu, if_false, gt_iff_lt, hr]
      refine ⟨?_, fun _ _ => trivial, trivial, trivial, trivial, trivial⟩
      revert hu hr
      cases h : pol.get st.1 <;> simp [fw3_target.rank]

theorem fw3_store_flags (defs : fw3_defaults) (opt : fw3_option) (v : uci_value) :
    (fw3_store defs opt v).flags = defs.flags := by
  unfold fw3_store
  split <;> rfl

theorem fw3_parse_options_flags (defs : fw3_defaults) (opts : List fw3_option)
    (s : uci_section) : (fw3_parse_options defs opts s).flags = defs.flags := by
  unfold fw3_parse_options
  generalize s.options = os
  induction os generalizing defs with
  | nil => rfl
  | cons o rest ih =>
    rw [List.foldl_cons, ih]
    split
    · exact fw3_store_flags _ _ _
    · rfl

theorem load_section_seen (st : load_state) (s : uci_section) :
    (load_section st s).seen = st.seen := by
  unfold load_section
  split_ifs <;> rfl

theorem load_section_other (st : load_state) (s : uci_section)
    (hs : s.type ≠ "defaults") : load_section st s = st := by
  unfold load_section
  simp [hs]

theorem load_section_defaults_valid (st : load_state) (s : uci_section)
    (hs : s.type = "defaults") (hseen : st.seen = false) :
    policies_valid (load_section st s).defs := by
  have h3 := check_policy_result s .policy_forward "forward"
    (check_policy s .policy_output "output"
      (check_policy s .policy_input "input"
        (fw3_parse_options st.defs default_opts s, st.warns)))
  have h2 := check_policy_result s .policy_output "output"
    (check_policy s .policy_input "input"
      (fw3_parse_options st.defs default_opts s, st.warns))
  have h1 := check_policy_result s .policy_input "input"
    (fw3_parse_options st.defs default_opts s, st.warns)
  have hi := h3.2.1 .policy_input (by decide)
  have ho := h3.2.1 .policy_output (by decide)
  have hi2 := h2.2.1 .policy_input (by decide)
  simp only [policy_ptr.get] at h1 h2 h3 hi ho hi2
  have vi := h1.1
  rw [← hi2, ← hi] at vi
  have vo := h2.1
  rw [← ho] at vo
  have vf := h3.1
  unfold load_section policies_valid
  simp only [hs, hseen, bne_self_eq_false, Bool.false_eq_true, if_false]
  split_ifs <;> exact ⟨vi, vo, vf⟩

theorem load_section_defaults_flags (st : load_state) (s : uci_section)
    (hs : s.type = "defaults") (hseen : st.seen = false)
    (hf : st.defs.flags = [.family .V4]) :
    hasbit (load_section st s).defs.flags (.family .V4) = true ∧
    (hasbit (load_section st s).defs.flags (.family .V6) = true ↔
      (load_section st s).defs.disable_ipv6 = false) ∧
    (hasbit (load_section st s).defs.flags (.feature .CUSTOM_CHAINS) = true ↔
      (load_section st s).defs.custom_chains = true) ∧
    (hasbit (load_section st s).defs.flags (.feature .SYN_FLOOD) = true ↔
      (load_section st s).defs.syn_flood = true) := by
  have h3 := check_policy_result s .policy_forward "forward"
    (check_policy s .policy_output "output"
      (check_policy s .policy_input "input"
        (fw3_parse_options st.defs default_opts s, st.warns)))
  have h2 := check_policy_result s .policy_output "output"
    (check_policy s .policy_input "input"
      (fw3_parse_options st.defs default_opts s, st.warns))
  have h1 := check_policy_result s .policy_input "input"
    (fw3_parse_options st.defs default_opts s, st.warns)
  have hfl := h3.2.2.1
  rw [h2.2.2.1, h1.2.2.1] at hfl
  simp only [fw3_parse_options_flags, hf] at hfl
  unfold load_section
  simp only [hs, hseen, bne_self_eq_false, Bool.false_eq_true, if_false]
  generalize (check_policy s .policy_forward "forward"
    (check_policy s .policy_output "output"
      (check_policy s .policy_input "input"
        (fw3_parse_options st.defs default_opts s, st.warns)))).1 = d at hfl
  cases hd : d.disable_ipv6 <;> cases hc : d.custom_chains <;>
    cases hy : d.syn_flood <;> simp [hd, hc, hy, hfl, setbit, hasbit]

theorem load_foldl_seen (p : uci_package) (st : load_state) :
    (p.foldl load_section st).seen = st.seen := by
  induction p generalizing st with
  | nil => rfl
  | cons s rest ih => rw [List.foldl_cons, ih, load_section_seen]

theorem load_foldl_no_section (p : uci_package) (st : load_state)
    (h : ∀ s ∈ p, s.type ≠ "defaults") : p.foldl load_section st = st := by
  induction p generalizing st with
  | nil => rfl
  | cons s rest ih =>
    rw [List.foldl_cons, load_section_other st s (h s (List.mem_cons_self s rest))]
    exact ih st (fun x hx => h x (List.mem_cons_of_mem s hx))

theorem load_foldl_valid (p : uci_package) (st : load_state) (hseen : st.seen = false)
    (h : policies_valid st.defs ∨ ∃ s ∈ p, s.type = "defaults") :
    policies_valid (p.foldl load_section st).defs := by
  induction p generalizing st with
  | nil =>
    rcases h with h | ⟨s, hs, _⟩
    · exact h
    · exact absurd hs (List.not_mem_nil s)
  | cons s rest ih =>
    rw [List.foldl_cons]
    apply ih
    · rw [load_section_seen]; exact hseen
    · by_cases hs : s.type = "defaults"
      · exact Or.inl (load_section_defaults_valid st s hs hseen)
      · rw [load_section_other st s hs]
        rcases h with h | ⟨x, hx, hxt⟩
        · exact Or.inl h
        · rcases List.mem_cons.mp hx with hxs | hxr
          · exact absurd (hxs ▸ hxt) hs
          · exact Or.inr ⟨x, hxr, hxt⟩

/-- With no section of type "defaults" the loader returns the baseline
record and no warning. -/
theorem load_defaults_no_section (state : fw3_defaults) (p : uci_package)
    (h : ∀ s ∈ p, s.type ≠ "defaults") :
    fw3_load_defaults state p = (load_baseline state, []) := by
  unfold fw3_load_defaults
  simp only [load_foldl_no_section p _ h]
  rfl

/-- With at least one section of type "defaults" every policy of the loaded
record is Accept or Drop. -/
theorem load_defaults_valid_of_section (state : fw3_defaults) (p : uci_package)
    (h : ∃ s ∈ p, s.type = "defaults") :
    policies_valid (fw3_load_defaults state p).1 := by
  unfold fw3_load_defaults
  exact load_foldl_valid p _ rfl (Or.inr h)

/-- With exactly one section of type "defaults", found anywhere among
sections of other types, and a zero-filled incoming record, the flag set of
the loaded record mirrors the booleans. -/
theorem load_defaults_one_section_flags (before after : uci_package) (s : uci_section)
    (hb : ∀ x ∈ before, x.type ≠ "defaults") (ha : ∀ x ∈ after, x.type ≠ "defaults")
    (hs : s.type = "defaults") :
    hasbit (fw3_load_defaults .empty (before ++ s :: after)).1.flags (.family .V4) = true ∧
    (hasbit (fw3_load_defaults .empty (before ++ s :: after)).1.flags (.family .V6) = true ↔
      (fw3_load_defaults .empty (before ++ s :: after)).1.disable_ipv6 = false) ∧
    (hasbit (fw3_load_defaults .empty (before ++ s :: after)).1.flags
        (.feature .CUSTOM_CHAINS) = true ↔
      (fw3_load_defaults .empty (before ++ s :: after)).1.custom_chains = true) ∧
    (hasbit (fw3_load_defaults .empty (before ++ s :: after)).1.flags
        (.feature .SYN_FLOOD) = true ↔
      (fw3_load_defaults .empty (before ++ s :: after)).1.syn_flood = true) := by
  unfold fw3_load_defaults
  simp only [List.foldl_append, List.foldl_cons, load_foldl_no_section before _ hb,
    load_foldl_no_section after _ ha]
  exact load_section_defaults_flags _ s hs rfl rfl

/-! ## C1: the chain-declaration phase -/

/-- C1 as stated fails: for table Filter and family V4, with the Defaults
loaded from a package holding one empty "defaults" section,
`fw3_print_default_chains` writes lines that are not chain-creation lines of
catalog entries (the three base-chain policy lines come first). -/
theorem print_default_chains_not_only_catalog :
    fw3_print_default_chains .FILTER .V4 (fw3_load_defaults .empty pkg_one_section).1 [] ≠
      ((default_chains.filter (fun c => decide (applies c .V4 .FILTER
          (fw3_load_defaults .empty pkg_one_section).1.flags))).map
        (fun c => ":" ++ c.name ++ " - [0:0]")) ∧
    fw3_print_default_chains .FILTER .V4 (fw3_load_defaults .empty pkg_one_section).1 [] =
      [":INPUT DROP [0:0]", ":FORWARD DROP [0:0]", ":OUTPUT DROP [0:0]",
       ":delegate_input - [0:0]", ":delegate_output - [0:0]",
       ":delegate_forward - [0:0]", ":input_rule - [0:0]", ":output_rule - [0:0]",
       ":forwarding_rule - [0:0]", ":reject - [0:0]"] := by
  constructor
  · decide
  · decide

/-- C1, amended: for every table, family and Defaults,
`fw3_print_default_chains` writes, after the lines already written, the three
base-chain policy lines INPUT, FORWARD, OUTPUT when the table is Filter (none
for another table), followed by exactly the chain-creation lines
`:<name> - [0:0]` of the `default_chains` entries for which `applies` holds
with the flags of the Defaults, in catalog order, and no other line. -/
theorem print_default_chains_lines (table : fw3_table) (family : fw3_family)
    (defs : fw3_defaults) (out : List String) :
    fw3_print_default_chains table family defs out =
      out ++
      (if table = .FILTER then
        [":INPUT " ++ policy_name defs.policy_input ++ " [0:0]",
         ":FORWARD " ++ policy_name defs.policy_forward ++ " [0:0]",
         ":OUTPUT " ++ policy_name defs.policy_output ++ " [0:0]"]
       else []) ++
      ((default_chains.filter
          (fun c => decide (applies c family table defs.flags))).map
        (fun c => ":" ++ c.name ++ " - [0:0]")) := by
  unfold fw3_print_default_chains
  rw [print_chains_fst]
  unfold applicable_lines
  by_cases h : table = .FILTER <;> simp [h, fw3_fmt.pr, fmt_chain]

/-! ## C2: duplicate "defaults" sections -/

/-- C2 fails on the code: `seen` is never set, so a second "defaults" section
is parsed like the first.  On `pkg_two_sections` the record differs from the
one loaded from the first section alone (input policy DROP instead of ACCEPT,
SYN-flood protection on), and no "ignoring duplicate section" warning is
issued. -/
theorem load_defaults_merges_second_section :
    (fw3_load_defaults .empty pkg_two_sections).1 ≠
      (fw3_load_defaults .empty [section_first]).1 ∧
    (fw3_load_defaults .empty [section_first]).1.policy_input = .ACCEPT ∧
    (fw3_load_defaults .empty pkg_two_sections).1.policy_input = .DROP ∧
    (fw3_load_defaults .empty [section_first]).1.syn_flood = false ∧
    (fw3_load_defaults .empty pkg_two_sections).1.syn_flood = true ∧
    (∀ w ∈ (fw3_load_defaults .empty pkg_two_sections).2,
      w.msg ≠ "ignoring duplicate section") := by
  decide

/-! ## C3: policies after loading -/

/-- C3 fails on the code: the policies are validated inside the section loop
only, so a package without a "defaults" section leaves all three policies
Unspecified, without a warning, and the chain-declaration phase then names the
base-chain policy "(bug)". -/
theorem load_defaults_no_section_unspecified :
    (fw3_load_defaults .empty []).1.policy_input = .UNSPEC ∧
    (fw3_load_defaults .empty []).1.policy_output = .UNSPEC ∧
    (fw3_load_defaults .empty []).1.policy_forward = .UNSPEC ∧
    (fw3_load_defaults .empty []).2 = [] ∧
    (fw3_load_defaults .empty pkg_no_section).1.policy_input = .UNSPEC ∧
    (fw3_load_defaults .empty pkg_no_section).1.policy_output = .UNSPEC ∧
    (fw3_load_defaults .empty pkg_no_section).1.policy_forward = .UNSPEC ∧
    (fw3_print_default_chains .FILTER .V4 (fw3_load_defaults .empty []).1 []).take 3 =
      [":INPUT (bug) [0:0]", ":FORWARD (bug) [0:0]", ":OUTPUT (bug) [0:0]"] := by
  decide

/-! ## C4: `check_policy` -/

/-- C4: `check_policy` on the policy member `pol` with name `n`.  If the
value is Unspecified or ranked above Drop, the member becomes Drop and exactly
one warning is appended, for the element `e`, whose message contains `n`; if
the value is Accept or Drop, neither the record nor the warnings change.  In
every case the other two policy members keep their value, and the record
changes at most in the member `pol`. -/
theorem check_policy_spec (e : uci_section) (pol : policy_ptr) (n : String)
    (defs : fw3_defaults) (warns : List warning) :
    ((pol.get defs = .UNSPEC ∨ fw3_target.DROP.rank < (pol.get defs).rank) →
      pol.get (check_policy e pol n (defs, warns)).1 = .DROP ∧
      ∃ w, (check_policy e pol n (defs, warns)).2 = warns ++ [w] ∧
        w.elem = e.name ∧ ∃ a b, w.msg = a ++ n ++ b) ∧
    ((pol.get defs = .ACCEPT ∨ pol.get defs = .DROP) →
      check_policy e pol n (defs, warns) = (defs, warns)) ∧
    (∀ q : policy_ptr, q ≠ pol →
      q.get (check_policy e pol n (defs, warns)).1 = q.get defs) ∧
    (check_policy e pol n (defs, warns)).1 =
      pol.set defs (pol.get (check_policy e pol n (defs, warns)).1) := by
  refine ⟨?_, ?_, ?_, ?_⟩
  · intro h
    unfold check_policy
    by_cases hu : pol.get defs = .UNSPEC
    · simp only [hu, if_true]
      refine ⟨by cases pol <;> rfl, ⟨e.name, _⟩, rfl, rfl, "has no ",
        " policy specified, defaulting to DROP", rfl⟩
    · have hr : fw3_target.DROP.rank < (pol.get defs).rank := by
        rcases h with h | h
        · exact absurd h hu
        · exact h
      simp only [hu, if_false, gt_iff_lt, hr, if_true]
      refine ⟨by cases pol <;> rfl, ⟨e.name, _⟩, rfl, rfl, "has invalid ",
        " policy, defaulting to DROP", rfl⟩
  · intro h
    unfold check_policy
    rcases h with h | h <;> simp [h, fw3_target.rank]
  · intro q hq
    unfold check_policy
    by_cases hu : pol.get defs = .UNSPEC
    · simp only [hu, if_true]
      cases pol <;> cases q <;> first | exact absurd rfl hq | rfl
    · by_cases hr : fw3_target.DROP.rank < (pol.get defs).rank
      · simp only [hu, if_false, gt_iff_lt, hr, if_true]
        cases pol <;> cases q <;> first | exact absurd rfl hq | rfl
      · simp only [hu, if_false, gt_iff_lt, hr]
  · unfold check_policy
    by_cases hu : pol.get defs = .UNSPEC
    · simp only [hu, if_true]
      cases pol <;> rfl
    · by_cases hr : fw3_target.DROP.rank < (pol.get defs).rank
      · simp only [hu, if_false, gt_iff_lt, hr, if_true]
        cases pol <;> rfl
      · simp only [hu, if_false, gt_iff_lt, hr]
        cases pol <;> rfl

/-- C4 at a concrete input: an Unspecified input policy becomes Drop, with
the one warning naming "input", while output and forward stay as they were. -/
theorem check_policy_spec_witness :
    (policy_ptr.policy_input.get fw3_defaults.empty = .UNSPEC ∨
      fw3_target.DROP.rank < (policy_ptr.policy_input.get fw3_defaults.empty).rank) ∧
    policy_ptr.policy_input.get
      (check_policy section_first .policy_input "input" (fw3_defaults.empty, [])).1 = .DROP ∧
    (check_policy section_first .policy_input "input" (fw3_defaults.empty, [])).2 =
      [{ elem := "cfg01", msg := "has no input policy specified, defaulting to DROP" }] ∧
    policy_ptr.policy_output.get
      (check_policy section_first .policy_input "input" (fw3_defaults.empty, [])).1 =
      policy_ptr.policy_output.get fw3_defaults.empty :=
  ⟨Or.inl (by decide),
   ((check_policy_spec section_first .policy_input "input" fw3_defaults.empty []).1
      (Or.inl (by decide))).1,
   by decide,
   (check_policy_spec section_first .policy_input "input" fw3_defaults.empty []).2.2.1
      .policy_output (by decide)⟩

/-! ## C5: the flag set after loading -/

/-- C5 fails on the code.  With no "defaults" section the flag set is IPv4
alone although `custom_chains` is true and `disable_ipv6` is false (the flags
are derived inside the section loop only).  With two "defaults" sections the
second is parsed as well and a flag once set is never cleared: the flag set
holds CustomChains although `custom_chains` is false in the result. -/
theorem load_defaults_flags_diverge :
    (fw3_load_defaults .empty []).1.flags = [.family .V4] ∧
    (fw3_load_defaults .empty []).1.custom_chains = true ∧
    hasbit (fw3_load_defaults .empty []).1.flags (.feature .CUSTOM_CHAINS) = false ∧
    (fw3_load_defaults .empty []).1.disable_ipv6 = false ∧
    hasbit (fw3_load_defaults .empty []).1.flags (.family .V6) = false ∧
    (fw3_load_defaults .empty pkg_two_sections).1.custom_chains = false ∧
    hasbit (fw3_load_defaults .empty pkg_two_sections).1.flags
      (.feature .CUSTOM_CHAINS) = true := by
  decide

/-! ## C6: Scenario A -/

/-- C6 fails on the code: with the Defaults loaded from a package without a
"defaults" section, the chain-declaration phase for Filter and V4 writes no
line for `input_rule`, `output_rule` and `forwarding_rule` (the CustomChains
flag was never derived), while the head-rule phase for the same Defaults still
jumps to `input_rule`. -/
theorem scenario_a_custom_chains_missing :
    fw3_print_default_chains .FILTER .V4 (fw3_load_defaults .empty []).1 [] =
      [":INPUT (bug) [0:0]", ":FORWARD (bug) [0:0]", ":OUTPUT (bug) [0:0]",
       ":delegate_input - [0:0]", ":delegate_output - [0:0]",
       ":delegate_forward - [0:0]", ":reject - [0:0]"] ∧
    ":input_rule - [0:0]" ∉
      fw3_print_default_chains .FILTER .V4 (fw3_load_defaults .empty []).1 [] ∧
    "-A delegate_input -j input_rule" ∈
      fw3_print_default_head_rules (fun _ => "") .FILTER .V4
        (fw3_load_defaults .empty []).1 [] := by
  decide

/-! ## C7: family exclusivity -/

/-- C7: for each of the two catalogs, every table, flag set and format: the
line of an entry declared for V4 is not written when the requested family is
V6, the line of an entry declared for V6 is not written when the requested
family is V4, and the line of an entry declared Any whose table is the
requested one and whose required feature is None or present is written both
for V4 and for V6.  The V4 entries are the two Nat delegate chains, the two
Nat custom chains and the two Nat top-level jumps; no entry is declared for
V6. -/
theorem print_chains_family_exclusive (table : fw3_table) (flags : fw3_flags)
    (fmt : fw3_fmt) (cat : List chain)
    (hcat : cat = default_chains ∨ cat = toplevel_rules)
    (c : chain) (hc : c ∈ cat) :
    (c.family = .V4 → fmt.pr c.name ∉ (print_chains table .V6 fmt flags cat []).1) ∧
    (c.family = .V6 → fmt.pr c.name ∉ (print_chains table .V4 fmt flags cat []).1) ∧
    (c.family = .ANY → c.table = table →
      (c.flag = .UNSPEC ∨ hasbit flags (.feature c.flag) = true) →
      fmt.pr c.name ∈ (print_chains table .V4 fmt flags cat []).1 ∧
      fmt.pr c.name ∈ (print_chains table .V6 fmt flags cat []).1) ∧
    ((default_chains ++ toplevel_rules).filter
        (fun x => decide (x.family = .V4))).map chain.name =
      ["delegate_prerouting", "delegate_postrouting", "prerouting_rule",
       "postrouting_rule", "PREROUTING -j delegate_prerouting",
       "POSTROUTING -j delegate_postrouting"] ∧
    (default_chains ++ toplevel_rules).filter (fun x => decide (x.family = .V6)) = [] := by
  have huniq : ∀ b ∈ cat, b.name = c.name → b = c := by
    intro b hb hn
    rcases hcat with h | h
    · subst h; exact default_chains_names_unique b hb c hc hn
    · subst h; exact toplevel_rules_names_unique b hb c hc hn
  have hexcl : ∀ (f g : fw3_family), c.family = f → f ≠ .ANY → f ≠ g →
      fmt.pr c.name ∉ (print_chains table g fmt flags cat []).1 := by
    intro f g hf hany hfg hmem
    rw [print_chains_fst, List.nil_append, applicable_lines_mem] at hmem
    obtain ⟨b, hb, happ, hl⟩ := hmem
    have hbc : b = c := huniq b hb (fmt_pr_injective fmt _ _ hl)
    subst hbc
    rcases happ.2.1 with h | h
    · exact hany (hf ▸ h)
    · exact hfg (hf ▸ h)
  refine ⟨?_, ?_, ?_, by decide, by decide⟩
  · intro h
    exact hexcl .V4 .V6 h (by decide) (by decide)
  · intro h
    exact hexcl .V6 .V4 h (by decide) (by decide)
  · intro hany ht hfl
    have hfl2 : c.flag = .UNSPEC ∨ fw3_flag.feature c.flag ∈ flags := by
      rcases hfl with h | h
      · exact Or.inl h
      · exact Or.inr (by simpa [hasbit] using h)
    constructor
    · rw [print_chains_fst, List.nil_append, applicable_lines_mem]
      exact ⟨c, hc, ⟨ht, Or.inl hany, hfl2⟩, rfl⟩
    · rw [print_chains_fst, List.nil_append, applicable_lines_mem]
      exact ⟨c, hc, ⟨ht, Or.inl hany, hfl2⟩, rfl⟩

/-- C7 at concrete inputs: the V4 chain `delegate_prerouting` is not declared
for family V6 on table Nat, and the Any chain `syn_flood` is declared for V4
and for V6 on table Filter when the SynFlood flag is present. -/
theorem print_chains_family_exclusive_witness :
    (C .V4 .NAT .UNSPEC "delegate_prerouting") ∈ default_chains ∧
    fmt_chain.pr "delegate_prerouting" ∉
      (print_chains .NAT .V6 fmt_chain [] default_chains []).1 ∧
    (C .ANY .FILTER .SYN_FLOOD "syn_flood") ∈ default_chains ∧
    fmt_chain.pr "syn_flood" ∈
      (print_chains .FILTER .V4 fmt_chain [.feature .SYN_FLOOD] default_chains []).1 ∧
    fmt_chain.pr "syn_flood" ∈
      (print_chains .FILTER .V6 fmt_chain [.feature .SYN_FLOOD] default_chains []).1 :=
  ⟨by decide,
   (print_chains_family_exclusive .NAT [] fmt_chain default_chains (Or.inl rfl)
      (C .V4 .NAT .UNSPEC "delegate_prerouting") (by decide)).1 rfl,
   by decide,
   ((print_chains_family_exclusive .FILTER [.feature .SYN_FLOOD] fmt_chain default_chains
      (Or.inl rfl) (C .ANY .FILTER .SYN_FLOOD "syn_flood") (by decide)).2.2.1
      rfl rfl (Or.inr (by decide)))⟩

/-! ## C8: head rules of table Filter -/

/-- C8: for table Filter, every family, every Defaults and every text of the
limit match, `fw3_print_default_head_rules` appends exactly, in this order:
the matching top-level jumps (the three Filter jumps); the two loopback accept
rules; the three hook jumps if and only if `custom_chains`; for input, output,
forward the RELATED,ESTABLISHED accept rule followed by the INVALID drop rule
if and only if `drop_invalid`; the three `syn_flood` lines, the first carrying
the limit match of `syn_flood_rate`, if and only if `syn_flood`; and the two
reject-chain rules.  Scenario B (custom chains off, SYN flood on, rate 10,
burst 20, family V4) gives no hook jump and the three `syn_flood` lines with
the limit match of rate 10 and burst 20. -/
theorem print_default_head_rules_filter (fw3_format_limit : fw3_limit → String)
    (family : fw3_family) (defs : fw3_defaults) (out : List String) :
    fw3_print_default_head_rules fw3_format_limit .FILTER family defs out =
      out ++
      ((toplevel_rules.filter (fun c => decide (applies c family .FILTER []))).map
        (fun c => "-A " ++ c.name)) ++
      ["-A delegate_input -i lo -j ACCEPT",
       "-A delegate_output -o lo -j ACCEPT"] ++
      (if defs.custom_chains then
        ["-A delegate_input -j input_rule",
         "-A delegate_output -j output_rule",
         "-A delegate_forward -j forwarding_rule"]
       else []) ++
      ["-A delegate_input -m conntrack --ctstate RELATED,ESTABLISHED -j ACCEPT"] ++
      (if defs.drop_invalid then
        ["-A delegate_input -m conntrack --ctstate INVALID -j DROP"] else []) ++
      ["-A delegate_output -m conntrack --ctstate RELATED,ESTABLISHED -j ACCEPT"] ++
      (if defs.drop_invalid then
        ["-A delegate_output -m conntrack --ctstate INVALID -j DROP"] else []) ++
      ["-A delegate_forward -m conntrack --ctstate RELATED,ESTABLISHED -j ACCEPT"] ++
      (if defs.drop_invalid then
        ["-A delegate_forward -m conntrack --ctstate INVALID -j DROP"] else []) ++
      (if defs.syn_flood then
        ["-A syn_flood -p tcp --syn" ++ fw3_format_limit defs.syn_flood_rate ++
           " -j RETURN",
         "-A syn_flood -j DROP",
         "-A delegate_input -p tcp --syn -j syn_flood"]
       else []) ++
      ["-A reject -p tcp -j REJECT --reject-with tcp-reset",
       "-A reject -j REJECT --reject-with port-unreach"] ∧
    (toplevel_rules.filter (fun c => decide (applies c family .FILTER []))).map
        (fun c => "-A " ++ c.name) =
      ["-A INPUT -j delegate_input", "-A OUTPUT -j delegate_output",
       "-A FORWARD -j delegate_forward"] ∧
    (defaults_scenario_b.custom_chains = false ∧
     defaults_scenario_b.syn_flood = true ∧
     defaults_scenario_b.syn_flood_rate = { rate := 10, burst := 20 } ∧
     fw3_print_default_head_rules fw3_format_limit .FILTER .V4 defaults_scenario_b [] =
      ["-A INPUT -j delegate_input", "-A OUTPUT -j delegate_output",
       "-A FORWARD -j delegate_forward",
       "-A delegate_input -i lo -j ACCEPT",
       "-A delegate_output -o lo -j ACCEPT",
       "-A delegate_input -m conntrack --ctstate RELATED,ESTABLISHED -j ACCEPT",
       "-A delegate_output -m conntrack --ctstate RELATED,ESTABLISHED -j ACCEPT",
       "-A delegate_forward -m conntrack --ctstate RELATED,ESTABLISHED -j ACCEPT",
       "-A syn_flood -p tcp --syn" ++ fw3_format_limit { rate := 10, burst := 20 } ++
         " -j RETURN",
       "-A syn_flood -j DROP",
       "-A delegate_input -p tcp --syn -j syn_flood",
       "-A reject -p tcp -j REJECT --reject-with tcp-reset",
       "-A reject -j REJECT --reject-with port-unreach"] ∧
     "-A delegate_input -j input_rule" ∉
       fw3_print_default_head_rules fw3_format_limit .FILTER .V4 defaults_scenario_b [] ∧
     "-A delegate_output -j output_rule" ∉
       fw3_print_default_head_rules fw3_format_limit .FILTER .V4 defaults_scenario_b [] ∧
     "-A delegate_forward -j forwarding_rule" ∉
       fw3_print_default_head_rules fw3_format_limit .FILTER .V4 defaults_scenario_b []) := by
  have hgen : ∀ (fam : fw3_family) (d : fw3_defaults) (o : List String),
      fw3_print_default_head_rules fw3_format_limit .FILTER fam d o =
      o ++
      ((toplevel_rules.filter (fun c => decide (applies c fam .FILTER []))).map
        (fun c => "-A " ++ c.name)) ++
      ["-A delegate_input -i lo -j ACCEPT",
       "-A delegate_output -o lo -j ACCEPT"] ++
      (if d.custom_chains then
        ["-A delegate_input -j input_rule",
         "-A delegate_output -j output_rule",
         "-A delegate_forward -j forwarding_rule"]
       else []) ++
      ["-A delegate_input -m conntrack --ctstate RELATED,ESTABLISHED -j ACCEPT"] ++
      (if d.drop_invalid then
        ["-A delegate_input -m conntrack --ctstate INVALID -j DROP"] else []) ++
      ["-A delegate_output -m conntrack --ctstate RELATED,ESTABLISHED -j ACCEPT"] ++
      (if d.drop_invalid then
        ["-A delegate_output -m conntrack --ctstate INVALID -j DROP"] else []) ++
      ["-A delegate_forward -m conntrack --ctstate RELATED,ESTABLISHED -j ACCEPT"] ++
      (if d.drop_invalid then
        ["-A delegate_forward -m conntrack --ctstate INVALID -j DROP"] else []) ++
      (if d.syn_flood then
        ["-A syn_flood -p tcp --syn" ++ fw3_format_limit d.syn_flood_rate ++
           " -j RETURN",
         "-A syn_flood -j DROP",
         "-A delegate_input -p tcp --syn -j syn_flood"]
       else []) ++
      ["-A reject -p tcp -j REJECT --reject-with tcp-reset",
       "-A reject -j REJECT --reject-with port-unreach"] := by
    intro fam d o
    unfold fw3_print_default_head_rules
    rw [print_chains_fst]
    have hpre : applicable_lines .FILTER fam fmt_append [] toplevel_rules =
        (toplevel_rules.filter (fun c => decide (applies c fam .FILTER []))).map
          (fun c => "-A " ++ c.name) := by
      unfold applicable_lines
      simp [fw3_fmt.pr, fmt_append]
    rw [hpre]
    cases hc : d.custom_chains <;> cases hd : d.drop_invalid <;>
      cases hs : d.syn_flood <;>
      simp [hc, hd, hs, head_rules_loop, chains, List.append_assoc]
  have htop : ∀ fam : fw3_family,
      (toplevel_rules.filter (fun c => decide (applies c fam .FILTER []))).map
        (fun c => "-A " ++ c.name) =
      ["-A INPUT -j delegate_input", "-A OUTPUT -j delegate_output",
       "-A FORWARD -j delegate_forward"] := by
    intro fam
    cases fam <;> decide
  have hb1 : defaults_scenario_b.custom_chains = false := by decide
  have hb2 : defaults_scenario_b.syn_flood = true := by decide
  have hb3 : defaults_scenario_b.drop_invalid = false := by decide
  have hb4 : defaults_scenario_b.syn_flood_rate = { rate := 10, burst := 20 } := by decide
  have hB : fw3_print_default_head_rules fw3_format_limit .FILTER .V4
      defaults_scenario_b [] =
      ["-A INPUT -j delegate_input", "-A OUTPUT -j delegate_output",
       "-A FORWARD -j delegate_forward",
       "-A delegate_input -i lo -j ACCEPT",
       "-A delegate_output -o lo -j ACCEPT",
       "-A delegate_input -m conntrack --ctstate RELATED,ESTABLISHED -j ACCEPT",
       "-A delegate_output -m conntrack --ctstate RELATED,ESTABLISHED -j ACCEPT",
       "-A delegate_forward -m conntrack --ctstate RELATED,ESTABLISHED -j ACCEPT",
       "-A syn_flood -p tcp --syn" ++ fw3_format_limit { rate := 10, burst := 20 } ++
         " -j RETURN",
       "-A syn_flood -j DROP",
       "-A delegate_input -p tcp --syn -j syn_flood",
       "-A reject -p tcp -j REJECT --reject-with tcp-reset",
       "-A reject -j REJECT --reject-with port-unreach"] := by
    rw [hgen, htop, hb1, hb2, hb3, hb4]
    simp
  have hne : ∀ (x : String) (l : String), l.data[3]? = some 'd' →
      "-A syn_flood -p tcp --syn" ++ x ++ " -j RETURN" ≠ l := by
    intro x l hl h
    have h2 := congrArg (fun s => s.data[3]?) h
    simp only [String.data_append] at h2
    rw [hl] at h2
    simp at h2
  refine ⟨hgen family defs out, htop family, hb1, hb2, hb4, hB, ?_, ?_, ?_⟩
  · rw [hB]
    have := hne (fw3_format_limit { rate := 10, burst := 20 })
      "-A delegate_input -j input_rule" (by decide)
    simp [Ne.symm this]
  · rw [hB]
    have := hne (fw3_format_limit { rate := 10, burst := 20 })
      "-A delegate_output -j output_rule" (by decide)
    simp [Ne.symm this]
  · rw [hB]
    have := hne (fw3_format_limit { rate := 10, burst := 20 })
      "-A delegate_forward -j forwarding_rule" (by decide)
    simp [Ne.symm this]

/-! ## C9: tail rules -/

/-- C9: for every family and Defaults, `fw3_print_default_tail_rules` appends
nothing when the table is not Filter; for table Filter it appends, in the order
input, output, forward, the line `-A delegate_<dir> -j reject` for exactly
the directions whose policy equals Reject. -/
theorem print_default_tail_rules_lines (table : fw3_table) (family : fw3_family)
    (defs : fw3_defaults) (out : List String) :
    fw3_print_default_tail_rules table family defs out =
      out ++
      (if table = .FILTER then
        (if defs.policy_input = .REJECT then ["-A delegate_input -j reject"] else []) ++
        (if defs.policy_output = .REJECT then ["-A delegate_output -j reject"] else []) ++
        (if defs.policy_forward = .REJECT then ["-A delegate_forward -j reject"] else [])
       else []) := by
  unfold fw3_print_default_tail_rules
  by_cases ht : table = .FILTER
  · by_cases h1 : defs.policy_input = .REJECT <;>
      by_cases h2 : defs.policy_output = .REJECT <;>
      by_cases h3 : defs.policy_forward = .REJECT <;>
      simp [ht, h1, h2, h3]
  · simp [ht]

/-! ## C10: policy resets of flush pass 1 -/

/-- C10 as stated fails: on an empty statefile, pass 1 on table Filter writes
no line at all, so none of the three reset lines; on a statefile with two
entries of the Defaults kind it writes each reset line twice. -/
theorem flush_rules_reset_not_once :
    fw3_flush_rules .FILTER .V4 false [] [] = [] ∧
    List.count ":INPUT ACCEPT [0:0]"
      (fw3_flush_rules .FILTER .V4 false
        [{ type := .DEFAULTS, flags := fun _ => [] },
         { type := .DEFAULTS, flags := fun _ => [] }] []) = 2 ∧
    List.count ":INPUT ACCEPT [0:0]"
      (fw3_flush_rules .FILTER .V4 false
        [{ type := .OTHER 1, flags := fun _ => [] }] []) = 0 := by
  decide

/-- C10, amended: for every family and statefile, pass 1 on table Filter
writes each of the three reset lines (INPUT, OUTPUT, FORWARD to ACCEPT) once
per statefile entry of the Defaults kind, as the first three lines of that
entry, and pass 2 writes none of them for such an entry; on an empty statefile
both passes write no line, for every table. -/
theorem flush_rules_reset_per_entry (family : fw3_family)
    (statefile : List fw3_statefile_entry) (table : fw3_table) (pass2 : Bool)
    (e : fw3_statefile_entry) (out : List String) :
    List.count ":INPUT ACCEPT [0:0]"
      (fw3_flush_rules .FILTER family false statefile []) = defaults_entries statefile ∧
    List.count ":OUTPUT ACCEPT [0:0]"
      (fw3_flush_rules .FILTER family false statefile []) = defaults_entries statefile ∧
    List.count ":FORWARD ACCEPT [0:0]"
      (fw3_flush_rules .FILTER family false statefile []) = defaults_entries statefile ∧
    fw3_flush_rules .FILTER family false statefile [] =
      statefile.flatMap (fun x => flush_entry .FILTER family false [] x) ∧
    (if e.type = .DEFAULTS then
      (flush_entry .FILTER family false [] e).take 3 =
        [":INPUT ACCEPT [0:0]", ":OUTPUT ACCEPT [0:0]", ":FORWARD ACCEPT [0:0]"]
     else flush_entry .FILTER family false [] e = []) ∧
    fw3_flush_rules table family pass2 [] out = out := by
  refine ⟨flush_rules_count_reset family statefile _ (by decide),
    flush_rules_count_reset family statefile _ (by decide),
    flush_rules_count_reset family statefile _ (by decide), ?_, ?_, rfl⟩
  · rw [flush_rules_eq, List.nil_append]
    congr 1
    funext x
    rw [flush_entry_eq, List.nil_append]
  · rw [flush_entry_eq, List.nil_append]
    unfold entry_lines
    by_cases ht : e.type = .DEFAULTS
    · simp [ht, reset_lines]
    · simp [ht]

/-! ## Further lemmas on the flush protocol -/

theorem applicable_lines_eq (table : fw3_table) (family : fw3_family) (fmt : fw3_fmt)
    (flags : fw3_flags) (cat : List chain) :
    applicable_lines table family fmt flags cat =
      (cat.filter (fun c => decide (applies c family table flags))).map
        (fun c => fmt.pre ++ c.name ++ fmt.post) := rfl

theorem entry_lines_other (table : fw3_table) (family : fw3_family) (pass2 : Bool)
    (e : fw3_statefile_entry) (h : e.type ≠ .DEFAULTS) :
    entry_lines table family pass2 e = [] := by
  unfold entry_lines
  simp [h]

theorem flatMap_entry_lines_defaults (table : fw3_table) (family : fw3_family)
    (pass2 : Bool) (statefile : List fw3_statefile_entry) :
    statefile.flatMap (entry_lines table family pass2) =
      (defaults_kind statefile).flatMap (entry_lines table family pass2) := by
  unfold defaults_kind
  induction statefile with
  | nil => rfl
  | cons e rest ih =>
    by_cases h : e.type = .DEFAULTS
    · simp [List.filter_cons, h, List.flatMap_cons, ih]
    · simp [List.filter_cons, h, List.flatMap_cons, ih, entry_lines_other _ _ _ e h]

theorem reset_line_not_catalog (table : fw3_table) (family : fw3_family)
    (flags : fw3_flags) (line : String) (hl : line ∈ reset_lines) :
    line ∉ applicable_lines table family fmt_delete flags toplevel_rules ∧
    line ∉ applicable_lines table family fmt_flush flags default_chains ∧
    line ∉ applicable_lines table family fmt_remove flags default_chains := by
  have h1 : ∀ c ∈ toplevel_rules, ∀ l ∈ reset_lines, fmt_delete.pr c.name ≠ l := by
    decide
  have h2 : ∀ c ∈ default_chains, ∀ l ∈ reset_lines, fmt_flush.pr c.name ≠ l := by
    decide
  have h3 : ∀ c ∈ default_chains, ∀ l ∈ reset_lines, fmt_remove.pr c.name ≠ l := by
    decide
  refine ⟨?_, ?_, ?_⟩
  · intro hm
    rw [applicable_lines_mem] at hm
    obtain ⟨c, hc, _, he⟩ := hm
    exact h1 c hc line hl he
  · intro hm
    rw [applicable_lines_mem] at hm
    obtain ⟨c, hc, _, he⟩ := hm
    exact h2 c hc line hl he
  · intro hm
    rw [applicable_lines_mem] at hm
    obtain ⟨c, hc, _, he⟩ := hm
    exact h3 c hc line hl he

theorem filter_not_reset_self (l : List String) (h : ∀ x ∈ l, x ∉ reset_lines) :
    l.filter (fun x => decide (x ∉ reset_lines)) = l := by
  rw [List.filter_eq_self]
  intro x hx
  simpa using h x hx

theorem filter_not_reset_entry (table : fw3_table) (family : fw3_family)
    (e : fw3_statefile_entry) (he : e.type = .DEFAULTS) :
    (entry_lines table family false e).filter (fun x => decide (x ∉ reset_lines)) =
      applicable_lines table family fmt_delete (e.flags 0) toplevel_rules ++
      applicable_lines table family fmt_flush (e.flags 0) default_chains := by
  have hr : reset_lines.filter (fun x => decide (x ∉ reset_lines)) = [] := by decide
  have hd : ∀ t : fw3_table,
      (applicable_lines t family fmt_delete (e.flags 0) toplevel_rules).filter
        (fun x => decide (x ∉ reset_lines)) =
      applicable_lines t family fmt_delete (e.flags 0) toplevel_rules := fun t =>
    filter_not_reset_self _
      (fun x hx hm => (reset_line_not_catalog t family (e.flags 0) x hm).1 hx)
  have hf : ∀ t : fw3_table,
      (applicable_lines t family fmt_flush (e.flags 0) default_chains).filter
        (fun x => decide (x ∉ reset_lines)) =
      applicable_lines t family fmt_flush (e.flags 0) default_chains := fun t =>
    filter_not_reset_self _
      (fun x hx hm => (reset_line_not_catalog t family (e.flags 0) x hm).2.1 hx)
  unfold entry_lines
  by_cases ht : table = .FILTER
  · simp only [he, if_true, ht, Bool.false_eq_true, if_false, List.filter_append, hr, hd, hf,
      List.nil_append]
  · simp only [he, if_true, ht, Bool.false_eq_true, if_false, List.filter_append, hd, hf,
      List.nil_append, List.filter_nil]

/-! ## C11: the lines of flush pass 1 -/

/-- C11: for every table, family and statefile, the output of pass 1 is, for
each statefile entry of the Defaults kind in statefile order, the policy reset
lines (table Filter only) followed by the `-D <rule>` lines of the top-level
jumps matching the entry's recorded flags, in catalog order, followed by the
`-F <chain>` lines of the chains matching the entry's recorded flags, in
catalog order.  The per-entry output, that is the output without the policy
reset lines, is exactly these `-D` and `-F` lines.  An entry of any other
kind contributes no line. -/
theorem flush_rules_pass1_lines (table : fw3_table) (family : fw3_family)
    (statefile : List fw3_statefile_entry) (out : List String)
    (tag : Nat) (flags : Nat → fw3_flags) :
    fw3_flush_rules table family false statefile out =
      out ++ (defaults_kind statefile).flatMap (fun e =>
        (if table = .FILTER then
          [":INPUT ACCEPT [0:0]", ":OUTPUT ACCEPT [0:0]", ":FORWARD ACCEPT [0:0]"]
         else []) ++
        ((toplevel_rules.filter
            (fun c => decide (applies c family table (e.flags 0)))).map
          (fun c => "-D " ++ c.name)) ++
        ((default_chains.filter
            (fun c => decide (applies c family table (e.flags 0)))).map
          (fun c => "-F " ++ c.name))) ∧
    (fw3_flush_rules table family false statefile []).filter
        (fun l => decide (l ∉ reset_lines)) =
      (defaults_kind statefile).flatMap (fun e =>
        ((toplevel_rules.filter
            (fun c => decide (applies c family table (e.flags 0)))).map
          (fun c => "-D " ++ c.name)) ++
        ((default_chains.filter
            (fun c => decide (applies c family table (e.flags 0)))).map
          (fun c => "-F " ++ c.name))) ∧
    flush_entry table family false out { type := .OTHER tag, flags := flags } = out := by
  refine ⟨?_, ?_, ?_⟩
  · rw [flush_rules_eq, flatMap_entry_lines_defaults]
    congr 1
    unfold defaults_kind
    apply List.flatMap_congr
    intro e he
    have hd : e.type = .DEFAULTS := by
      simpa using (List.mem_filter.mp he).2
    unfold entry_lines
    simp [hd, applicable_lines_eq, fmt_delete, fmt_flush, reset_lines]
  · rw [flush_rules_eq, List.nil_append, flatMap_entry_lines_defaults]
    unfold defaults_kind
    generalize hL : statefile.filter (fun e => decide (e.type = .DEFAULTS)) = L
    have hall : ∀ e ∈ L, e.type = .DEFAULTS := by
      intro e he
      rw [← hL] at he
      simpa using (List.mem_filter.mp he).2
    clear hL
    induction L with
    | nil => rfl
    | cons e rest ih =>
      rw [List.flatMap_cons, List.flatMap_cons, List.filter_append,
        ih (fun x hx => hall x (List.mem_cons_of_mem e hx)),
        filter_not_reset_entry table family e (hall e (List.mem_cons_self e rest))]
      simp [applicable_lines_eq, fmt_delete, fmt_flush]
  · rw [flush_entry_eq]
    simp [entry_lines]

/-! ## C12: the lines of flush pass 2 -/

theorem remove_line_ne (a s : String) :
    "-X " ++ a ≠ "-D " ++ s ∧ "-X " ++ a ≠ "-F " ++ s := by
  constructor
  · intro h
    have h2 := congrArg (fun x => x.data[1]?) h
    simp [String.data_append] at h2
  · intro h
    have h2 := congrArg (fun x => x.data[1]?) h
    simp [String.data_append] at h2

/-- C12: for every table, family and statefile, pass 2 writes exactly, for
each statefile entry of the Defaults kind in statefile order, the
`-X <chain>` lines of the chains matching the entry's recorded flags, in
catalog order.  No line it writes is a policy reset line, a `-D` line or a
`-F` line, and an entry of any other kind contributes no line. -/
theorem flush_rules_pass2_lines (table : fw3_table) (family : fw3_family)
    (statefile : List fw3_statefile_entry) (out : List String)
    (tag : Nat) (flags : Nat → fw3_flags) :
    fw3_flush_rules table family true statefile out =
      out ++ (defaults_kind statefile).flatMap (fun e =>
        (default_chains.filter
            (fun c => decide (applies c family table (e.flags 0)))).map
          (fun c => "-X " ++ c.name)) ∧
    (∀ l ∈ fw3_flush_rules table family true statefile [],
      l ∉ reset_lines ∧ ∀ s : String, l ≠ "-D " ++ s ∧ l ≠ "-F " ++ s) ∧
    flush_entry table family true out { type := .OTHER tag, flags := flags } = out := by
  have hlines : fw3_flush_rules table family true statefile out =
      out ++ (defaults_kind statefile).flatMap (fun e =>
        (default_chains.filter
            (fun c => decide (applies c family table (e.flags 0)))).map
          (fun c => "-X " ++ c.name)) := by
    rw [flush_rules_eq, flatMap_entry_lines_defaults]
    congr 1
    unfold defaults_kind
    apply List.flatMap_congr
    intro e he
    have hd : e.type = .DEFAULTS := by
      simpa using (List.mem_filter.mp he).2
    unfold entry_lines
    simp [hd, applicable_lines_eq, fmt_remove]
  refine ⟨hlines, ?_, ?_⟩
  · intro l hl
    rw [flush_rules_eq, List.nil_append, List.mem_flatMap] at hl
    obtain ⟨e, _, hle⟩ := hl
    unfold entry_lines at hle
    by_cases hd : e.type = .DEFAULTS
    · simp only [hd, if_true] at hle
      constructor
      · intro hr
        exact (reset_line_not_catalog table family (e.flags 0) l hr).2.2 hle
      · intro s
        rw [applicable_lines_mem] at hle
        obtain ⟨c, _, _, hc⟩ := hle
        have hpr : fmt_remove.pr c.name = "-X " ++ c.name := by
          simp [fw3_fmt.pr, fmt_remove]
        rw [← hc, hpr]
        exact remove_line_ne c.name s
    · simp [hd] at hle
  · rw [flush_entry_eq]
    simp [entry_lines]

/-- C12 at a concrete input: with one Defaults entry recording SynFlood, the
pass-2 line `-X syn_flood` for Filter and V4 is no reset line, no `-D` line
and no `-F` line. -/
theorem flush_rules_pass2_lines_witness :
    "-X syn_flood" ∈
      fw3_flush_rules .FILTER .V4 true [defaults_entry [.feature .SYN_FLOOD]] [] ∧
    "-X syn_flood" ∉ reset_lines ∧
    "-X syn_flood" ≠ "-F " ++ "syn_flood" :=
  ⟨by decide,
   ((flush_rules_pass2_lines .FILTER .V4 [defaults_entry [.feature .SYN_FLOOD]] [] 0
      (fun _ => [])).2.1 "-X syn_flood" (by decide)).1,
   (((flush_rules_pass2_lines .FILTER .V4 [defaults_entry [.feature .SYN_FLOOD]] [] 0
      (fun _ => [])).2.1 "-X syn_flood" (by decide)).2 "syn_flood").2⟩

/-! ## C13: teardown removes what was created -/

theorem delete_line_ne_flush (a s : String) : "-D " ++ a ≠ "-F " ++ s := by
  intro h
  have h2 := congrArg (fun x => x.data[1]?) h
  simp [String.data_append] at h2

theorem reset_line_ne_flush (l : String) (hl : l ∈ reset_lines) (s : String) :
    l ≠ "-F " ++ s := by
  intro h
  have h2 := congrArg (fun x => x.data[0]?) h
  simp only [reset_lines, List.mem_cons, List.mem_singleton, List.not_mem_nil,
    or_false] at hl
  rcases hl with h | h | h <;> subst h <;> simp [String.data_append] at h2

theorem policy_name_cases (t : fw3_target) :
    policy_name t = "(bug)" ∨ policy_name t = "ACCEPT" ∨ policy_name t = "DROP" := by
  cases t <;> decide

theorem base_line_not_creation (b : String) (t : fw3_target) (n : String) :
    b ++ policy_name t ++ " [0:0]" ≠ ":" ++ n ++ " - [0:0]" := by
  intro h
  rcases policy_name_cases t with hp | hp | hp <;> rw [hp] at h <;>
    have h2 := congrArg (fun x => x.data.reverse[6]?) h <;>
    simp [String.data_append] at h2

/-- C13: for every table, family and Defaults, if the only statefile entry of
the Defaults kind records the flags of the Defaults, then with `names` the
names of the `default_chains` entries matching (family, table, flags), in
catalog order: pass 2 writes exactly the lines `-X <name>`; pass 1 writes the
policy resets (Filter) and the `-D` lines, none of which is a `-F` line,
followed by exactly the lines `-F <name>`; and the chain-declaration phase
writes the base-chain policy lines (Filter), none of which is a creation line,
followed by exactly the creation lines `:<name> - [0:0]`. -/
theorem teardown_matches_creation (table : fw3_table) (family : fw3_family)
    (defs : fw3_defaults) (statefile : List fw3_statefile_entry)
    (e : fw3_statefile_entry) (hsf : defaults_kind statefile = [e])
    (hfl : e.flags 0 = defs.flags) :
    fw3_flush_rules table family true statefile [] =
      (((default_chains.filter
          (fun c => decide (applies c family table defs.flags))).map chain.name).map
        (fun n => "-X " ++ n)) ∧
    fw3_flush_rules table family false statefile [] =
      ((if table = .FILTER then reset_lines else []) ++
        ((toplevel_rules.filter
            (fun c => decide (applies c family table defs.flags))).map
          (fun c => "-D " ++ c.name))) ++
      (((default_chains.filter
          (fun c => decide (applies c family table defs.flags))).map chain.name).map
        (fun n => "-F " ++ n)) ∧
    (∀ l ∈ (if table = .FILTER then reset_lines else []) ++
        ((toplevel_rules.filter
            (fun c => decide (applies c family table defs.flags))).map
          (fun c => "-D " ++ c.name)),
      ∀ s : String, l ≠ "-F " ++ s) ∧
    fw3_print_default_chains table family defs [] =
      (if table = .FILTER then
        [":INPUT " ++ policy_name defs.policy_input ++ " [0:0]",
         ":FORWARD " ++ policy_name defs.policy_forward ++ " [0:0]",
         ":OUTPUT " ++ policy_name defs.policy_output ++ " [0:0]"]
       else []) ++
      (((default_chains.filter
          (fun c => decide (applies c family table defs.flags))).map chain.name).map
        (fun n => ":" ++ n ++ " - [0:0]")) ∧
    (∀ l ∈ [":INPUT " ++ policy_name defs.policy_input ++ " [0:0]",
         ":FORWARD " ++ policy_name defs.policy_forward ++ " [0:0]",
         ":OUTPUT " ++ policy_name defs.policy_output ++ " [0:0]"],
      ∀ n : String, l ≠ ":" ++ n ++ " - [0:0]") := by
  have hd : e.type = .DEFAULTS := by
    have hmem : e ∈ defaults_kind statefile := by rw [hsf]; exact List.mem_singleton_self e
    unfold defaults_kind at hmem
    simpa using (List.mem_filter.mp hmem).2
  refine ⟨?_, ?_, ?_, ?_, ?_⟩
  rotate_left 4
  · intro l hl n
    simp only [List.mem_cons, List.mem_singleton, List.not_mem_nil, or_false] at hl
    rcases hl with h | h | h <;> subst h <;> exact base_line_not_creation _ _ n
  · rw [flush_rules_eq, flatMap_entry_lines_defaults, hsf]
    simp [entry_lines, hd, hfl, applicable_lines_eq, fmt_remove, List.map_map,
      Function.comp_def]
  · rw [flush_rules_eq, flatMap_entry_lines_defaults, hsf]
    simp [entry_lines, hd, hfl, applicable_lines_eq, fmt_delete, fmt_flush, List.map_map,
      Function.comp_def]
  · intro l hl s
    rcases List.mem_append.mp hl with h | h
    · by_cases ht : table = .FILTER
      · rw [if_pos ht] at h
        exact reset_line_ne_flush l h s
      · rw [if_neg ht] at h
        exact absurd h (List.not_mem_nil l)
    · obtain ⟨c, _, hc⟩ := List.mem_map.mp h
      rw [← hc]
      exact delete_line_ne_flush c.name s
  · unfold fw3_print_default_chains
    rw [print_chains_fst]
    by_cases ht : table = .FILTER <;>
      simp [ht, applicable_lines_eq, fmt_chain, List.map_map, Function.comp_def]

/-- C13 at a concrete input: the Defaults of Scenario B, recorded in the one
Defaults entry of a statefile that also holds an entry of another kind, table
Filter, family V4. -/
theorem teardown_matches_creation_witness :
    defaults_kind [{ type := .OTHER 7, flags := fun _ => [] },
        defaults_entry defaults_scenario_b.flags] =
      [defaults_entry defaults_scenario_b.flags] ∧
    (defaults_entry defaults_scenario_b.flags).flags 0 = defaults_scenario_b.flags ∧
    fw3_flush_rules .FILTER .V4 true
        [{ type := .OTHER 7, flags := fun _ => [] },
         defaults_entry defaults_scenario_b.flags] [] =
      ["-X delegate_input", "-X delegate_output", "-X delegate_forward", "-X reject",
       "-X syn_flood"] ∧
    fw3_print_default_chains .FILTER .V4 defaults_scenario_b [] =
      [":INPUT DROP [0:0]", ":FORWARD DROP [0:0]", ":OUTPUT DROP [0:0]",
       ":delegate_input - [0:0]", ":delegate_output - [0:0]",
       ":delegate_forward - [0:0]", ":reject - [0:0]", ":syn_flood - [0:0]"] :=
  ⟨rfl, rfl,
   (teardown_matches_creation .FILTER .V4 defaults_scenario_b
      [{ type := .OTHER 7, flags := fun _ => [] },
       defaults_entry defaults_scenario_b.flags]
      (defaults_entry defaults_scenario_b.flags) rfl rfl).1.trans (by decide),
   (teardown_matches_creation .FILTER .V4 defaults_scenario_b
      [{ type := .OTHER 7, flags := fun _ => [] },
       defaults_entry defaults_scenario_b.flags]
      (defaults_entry defaults_scenario_b.flags) rfl rfl).2.2.2.1.trans (by decide)⟩

/-! ## C14: two-pass referential safety -/

/-- C14 as stated fails: pass 1 for Filter and V4 on one Defaults entry
writes the line `-D INPUT -j delegate_input`; the chain name `INPUT` appears
in it and is the name of no chain-declaration catalog entry. -/
theorem flush_line_names_base_chain :
    "-D INPUT -j delegate_input" ∈
      fw3_flush_rules .FILTER .V4 false [defaults_entry []] [] ∧
    "INPUT" ∈ line_chains "-D INPUT -j delegate_input" ∧
    (∀ c ∈ default_chains, c.name ≠ "INPUT") := by
  decide

/-- C14, amended: for every table, family, pass and statefile, every chain
name that appears in a line the flush writes, other than the built-in base
chains INPUT, OUTPUT, FORWARD, PREROUTING and POSTROUTING, is the name of a
`default_chains` entry for which `applies` holds with the flags recorded in
the Defaults-kind statefile entry that produced the line. -/
theorem flush_lines_reference_declared (table : fw3_table) (family : fw3_family)
    (pass2 : Bool) (statefile : List fw3_statefile_entry) (l n : String)
    (hl : l ∈ fw3_flush_rules table family pass2 statefile [])
    (hn : n ∈ line_chains l) (hb : n ∉ base_chains) :
    ∃ e ∈ statefile, e.type = .DEFAULTS ∧ l ∈ flush_entry table family pass2 [] e ∧
      ∃ c ∈ default_chains, c.name = n ∧ applies c family table (e.flags 0) := by
  have hX : ∀ c ∈ default_chains, line_chains (fmt_remove.pr c.name) = [c.name] := by
    decide
  have hF : ∀ c ∈ default_chains, line_chains (fmt_flush.pr c.name) = [c.name] := by
    decide
  have hR : ∀ x ∈ reset_lines, line_chains x = [] := by decide
  have hD : ∀ c ∈ toplevel_rules, ∀ x ∈ line_chains (fmt_delete.pr c.name),
      x ∈ base_chains ∨ ∃ c2 ∈ default_chains, c2.name = x ∧ c2.family = c.family ∧
        c2.table = c.table ∧ c2.flag = .UNSPEC := by
    decide
  rw [flush_rules_eq, List.nil_append, List.mem_flatMap] at hl
  obtain ⟨e, he, hle⟩ := hl
  have hd : e.type = .DEFAULTS := by
    by_contra hne
    rw [entry_lines_other _ _ _ e hne] at hle
    exact List.not_mem_nil l hle
  refine ⟨e, he, hd, by rw [flush_entry_eq, List.nil_append]; exact hle, ?_⟩
  have hcat : ∀ (fmt : fw3_fmt),
      (∀ c ∈ default_chains, line_chains (fmt.pr c.name) = [c.name]) →
      l ∈ applicable_lines table family fmt (e.flags 0) default_chains →
      ∃ c ∈ default_chains, c.name = n ∧ applies c family table (e.flags 0) := by
    intro fmt hfmt hm
    rw [applicable_lines_mem] at hm
    obtain ⟨c, hc, happ, hpr⟩ := hm
    rw [← hpr, hfmt c hc, List.mem_singleton] at hn
    exact ⟨c, hc, hn.symm, happ⟩
  unfold entry_lines at hle
  rw [if_pos hd] at hle
  cases pass2 with
  | true =>
    rw [if_pos rfl] at hle
    exact hcat fmt_remove hX hle
  | false =>
    rw [if_neg (by decide)] at hle
    rcases List.mem_append.mp hle with h | h
    · rcases List.mem_append.mp h with h | h
      · by_cases ht : table = .FILTER
        · rw [if_pos ht] at h
          rw [hR l h] at hn
          exact absurd hn (List.not_mem_nil n)
        · rw [if_neg ht] at h
          exact absurd h (List.not_mem_nil l)
      · rw [applicable_lines_mem] at h
        obtain ⟨c, hc, happ, hpr⟩ := h
        rw [← hpr] at hn
        rcases hD c hc n hn with hbase | ⟨c2, hc2, hname, hfam, htab, hflag⟩
        · exact absurd hbase hb
        · exact ⟨c2, hc2, hname, htab.trans happ.1, hfam ▸ happ.2.1, Or.inl hflag⟩
    · exact hcat fmt_flush hF h

/-- C14, amended, at a concrete input: the jump target `delegate_input` of
the pass-1 line `-D INPUT -j delegate_input` is a declared chain that applies
for Filter, V4 and the recorded (empty) flags. -/
theorem flush_lines_reference_declared_witness :
    "-D INPUT -j delegate_input" ∈
      fw3_flush_rules .FILTER .V4 false [defaults_entry []] [] ∧
    "delegate_input" ∈ line_chains "-D INPUT -j delegate_input" ∧
    "delegate_input" ∉ base_chains ∧
    ∃ e ∈ [defaults_entry []], e.type = .DEFAULTS ∧
      "-D INPUT -j delegate_input" ∈ flush_entry .FILTER .V4 false [] e ∧
      ∃ c ∈ default_chains, c.name = "delegate_input" ∧
        applies c .V4 .FILTER (e.flags 0) :=
  ⟨by decide, by decide, by decide,
   flush_lines_reference_declared .FILTER .V4 false [defaults_entry []]
     "-D INPUT -j delegate_input" "delegate_input" (by decide) (by decide) (by decide)⟩

/-! ## Further lemmas on the head rules -/

theorem head_rules_eq (fw3_format_limit : fw3_limit → String) (table : fw3_table)
    (family : fw3_family) (defs : fw3_defaults) (out : List String) :
    fw3_print_default_head_rules fw3_format_limit table family defs out =
      out ++ applicable_lines table family fmt_append [] toplevel_rules ++
        head_rules_body fw3_format_limit table defs := by
  unfold fw3_print_default_head_rules head_rules_body
  rw [print_chains_fst]
  cases table
  · cases hc : defs.custom_chains <;> cases hd : defs.drop_invalid <;>
      cases hs : defs.syn_flood <;>
      simp [hc, hd, hs, head_rules_loop, chains, List.append_assoc]
  · cases hc : defs.custom_chains <;> simp [hc]
  · simp
  · simp

theorem toplevel_applies_any_flags (family : fw3_family) (table : fw3_table)
    (flags : fw3_flags) :
    toplevel_rules.filter (fun c => decide (applies c family table flags)) =
      toplevel_rules.filter (fun c => decide (applies c family table [])) := by
  have hu : ∀ c ∈ toplevel_rules, c.flag = .UNSPEC := by decide
  apply List.filter_congr
  intro c hc
  simp [applies, hu c hc]

/-! ## C15: the hard reset -/

/-- C15: `fw3_flush_all` takes the table alone (and the lines written so
far).  For table Filter it appends exactly the three policy reset lines for
INPUT, OUTPUT and FORWARD followed by `-F` and `-X`; for every other table it
appends exactly `-F` followed by `-X`. -/
theorem flush_all_lines (table : fw3_table) (out : List String) :
    fw3_flush_all table out =
      out ++ (if table = .FILTER then
        [":INPUT ACCEPT [0:0]", ":OUTPUT ACCEPT [0:0]", ":FORWARD ACCEPT [0:0]"]
       else []) ++ ["-F", "-X"] ∧
    fw3_flush_all .FILTER [] =
      [":INPUT ACCEPT [0:0]", ":OUTPUT ACCEPT [0:0]", ":FORWARD ACCEPT [0:0]",
       "-F", "-X"] ∧
    fw3_flush_all .NAT [] = ["-F", "-X"] ∧
    fw3_flush_all .MANGLE [] = ["-F", "-X"] ∧
    fw3_flush_all .RAW [] = ["-F", "-X"] := by
  refine ⟨?_, by decide, by decide, by decide, by decide⟩
  unfold fw3_flush_all reset_policy
  cases table <;> simp

/-! ## C16: head rules of the tables Nat, Mangle and Raw -/

/-- C16: for every family, Defaults and text of the limit match: on table Nat
`fw3_print_default_head_rules` appends the matching top-level jumps (the two
Nat jumps for family V4, none for another family) followed, if and only if
`custom_chains`, by the two hooks into `prerouting_rule` and
`postrouting_rule`, and nothing else; on table Mangle and on table Raw it
appends the matching top-level jump and nothing else. -/
theorem print_default_head_rules_other (fw3_format_limit : fw3_limit → String)
    (family : fw3_family) (defs : fw3_defaults) (out : List String) :
    fw3_print_default_head_rules fw3_format_limit .NAT family defs out =
      out ++
      ((toplevel_rules.filter (fun c => decide (applies c family .NAT []))).map
        (fun c => "-A " ++ c.name)) ++
      (if defs.custom_chains then
        ["-A delegate_prerouting -j prerouting_rule",
         "-A delegate_postrouting -j postrouting_rule"]
       else []) ∧
    fw3_print_default_head_rules fw3_format_limit .MANGLE family defs out =
      out ++
      ((toplevel_rules.filter (fun c => decide (applies c family .MANGLE []))).map
        (fun c => "-A " ++ c.name)) ∧
    fw3_print_default_head_rules fw3_format_limit .RAW family defs out =
      out ++
      ((toplevel_rules.filter (fun c => decide (applies c family .RAW []))).map
        (fun c => "-A " ++ c.name)) ∧
    (toplevel_rules.filter (fun c => decide (applies c family .NAT []))).map
        (fun c => "-A " ++ c.name) =
      (if family = .V4 then
        ["-A PREROUTING -j delegate_prerouting",
         "-A POSTROUTING -j delegate_postrouting"]
       else []) ∧
    (toplevel_rules.filter (fun c => decide (applies c family .MANGLE []))).map
        (fun c => "-A " ++ c.name) = ["-A FORWARD -j mssfix"] ∧
    (toplevel_rules.filter (fun c => decide (applies c family .RAW []))).map
        (fun c => "-A " ++ c.name) = ["-A PREROUTING -j notrack"] := by
  refine ⟨?_, ?_, ?_, ?_, ?_, ?_⟩
  · rw [head_rules_eq]
    simp [head_rules_body, applicable_lines_eq, fmt_append]
  · rw [head_rules_eq]
    simp [head_rules_body, applicable_lines_eq, fmt_append]
  · rw [head_rules_eq]
    simp [head_rules_body, applicable_lines_eq, fmt_append]
  · cases family <;> decide
  · cases family <;> decide
  · cases family <;> decide

/-! ## C18: unlink mirrors link -/

/-- C18: every top-level-jump catalog entry requires no feature.  Hence for
every table, family and recorded flag set, with `rules` the rule texts of the
top-level jumps matching (family, table) in catalog order: pass 1 writes for
one Defaults entry the policy resets (Filter), then exactly the lines
`-D <rule>` for `rules`, then the `-F` lines; and
`fw3_print_default_head_rules` starts with exactly the lines `-A <rule>` for
the same `rules`, in the same order. -/
theorem unlink_mirrors_link (fw3_format_limit : fw3_limit → String)
    (table : fw3_table) (family : fw3_family) (flags : Nat → fw3_flags)
    (defs : fw3_defaults) :
    (∀ c ∈ toplevel_rules, c.flag = .UNSPEC) ∧
    flush_entry table family false [] { type := .DEFAULTS, flags := flags } =
      (if table = .FILTER then reset_lines else []) ++
      (((toplevel_rules.filter
          (fun c => decide (applies c family table []))).map chain.name).map
        (fun r => "-D " ++ r)) ++
      ((default_chains.filter
          (fun c => decide (applies c family table (flags 0)))).map
        (fun c => "-F " ++ c.name)) ∧
    (print_chains table family fmt_delete (flags 0) toplevel_rules []).1 =
      (((toplevel_rules.filter
          (fun c => decide (applies c family table []))).map chain.name).map
        (fun r => "-D " ++ r)) ∧
    (print_chains table family fmt_append [] toplevel_rules []).1 =
      (((toplevel_rules.filter
          (fun c => decide (applies c family table []))).map chain.name).map
        (fun r => "-A " ++ r)) ∧
    fw3_print_default_head_rules fw3_format_limit table family defs [] =
      (((toplevel_rules.filter
          (fun c => decide (applies c family table []))).map chain.name).map
        (fun r => "-A " ++ r)) ++
      head_rules_body fw3_format_limit table defs := by
  refine ⟨by decide, ?_, ?_, ?_, ?_⟩
  · rw [flush_entry_eq]
    simp [entry_lines, applicable_lines_eq, toplevel_applies_any_flags family table (flags 0),
      fmt_delete, fmt_flush, List.map_map, Function.comp_def]
  · rw [print_chains_fst]
    simp [applicable_lines_eq, toplevel_applies_any_flags family table (flags 0),
      fmt_delete, List.map_map, Function.comp_def]
  · rw [print_chains_fst]
    simp [applicable_lines_eq, fmt_append, List.map_map, Function.comp_def]
  · rw [head_rules_eq]
    simp [applicable_lines_eq, fmt_append, List.map_map, Function.comp_def]

/-! ## C17: referential ordering at apply time -/

/-- C17 fails on the code: with the Defaults loaded from a package without a
"defaults" section, the head rules for Filter and V4 hold the line
`-A delegate_input -j input_rule`; its jump target `input_rule` is neither a
built-in base chain nor a built-in target, and the chain-declaration phase
for the same table, family and Defaults writes no line `:input_rule - [0:0]`.
The same holds for `output_rule` and `forwarding_rule`. -/
theorem head_rules_reference_undeclared :
    (fw3_load_defaults .empty []).1.custom_chains = true ∧
    hasbit (fw3_load_defaults .empty []).1.flags (.feature .CUSTOM_CHAINS) = false ∧
    "-A delegate_input -j input_rule" ∈
      fw3_print_default_head_rules (fun _ => "") .FILTER .V4
        (fw3_load_defaults .empty []).1 [] ∧
    line_chains "-A delegate_input -j input_rule" = ["delegate_input", "input_rule"] ∧
    "input_rule" ∉ base_chains ∧ "input_rule" ∉ builtin_targets ∧
    ":input_rule - [0:0]" ∉
      fw3_print_default_chains .FILTER .V4 (fw3_load_defaults .empty []).1 [] ∧
    "-A delegate_output -j output_rule" ∈
      fw3_print_default_head_rules (fun _ => "") .FILTER .V4
        (fw3_load_defaults .empty []).1 [] ∧
    ":output_rule - [0:0]" ∉
      fw3_print_default_chains .FILTER .V4 (fw3_load_defaults .empty []).1 [] ∧
    "-A delegate_forward -j forwarding_rule" ∈
      fw3_print_default_head_rules (fun _ => "") .FILTER .V4
        (fw3_load_defaults .empty []).1 [] ∧
    ":forwarding_rule - [0:0]" ∉
      fw3_print_default_chains .FILTER .V4 (fw3_load_defaults .empty []).1 [] := by
  decide

/-- On table Nat the head rules hook the custom chains whatever the family,
while the Nat chains are declared for V4 only: for family V6 and the Defaults
of a package with one empty "defaults" section the hooks are written and no
chain is declared. -/
theorem head_rules_nat_v6 :
    fw3_print_default_head_rules (fun _ => "") .NAT .V6
        (fw3_load_defaults .empty pkg_one_section).1 [] =
      ["-A delegate_prerouting -j prerouting_rule",
       "-A delegate_postrouting -j postrouting_rule"] ∧
    fw3_print_default_chains .NAT .V6 (fw3_load_defaults .empty pkg_one_section).1 [] =
      [] := by
  decide

/-! ## C19: the base-chain policy lines -/

/-- C19: for table Filter and every family, `fw3_print_default_chains` first
writes the three base-chain lines for INPUT, FORWARD and OUTPUT, in that
order, each `:<BASE> <POLICY> [0:0]` with the policy name looked up in the
`policy` table, which is ACCEPT for Accept and DROP for Drop and for Reject;
for every other table it writes the chain-creation lines only, and no
chain-creation line of any table is a base-chain line. -/
theorem print_default_chains_base_lines (family : fw3_family) (defs : fw3_defaults)
    (out : List String) (table : fw3_table) (flags : fw3_flags) (p : String) :
    fw3_print_default_chains .FILTER family defs out =
      out ++
      [":INPUT " ++ policy_name defs.policy_input ++ " [0:0]",
       ":FORWARD " ++ policy_name defs.policy_forward ++ " [0:0]",
       ":OUTPUT " ++ policy_name defs.policy_output ++ " [0:0]"] ++
      applicable_lines .FILTER family fmt_chain defs.flags default_chains ∧
    policy_name .ACCEPT = "ACCEPT" ∧
    policy_name .DROP = "DROP" ∧
    policy_name .REJECT = "DROP" ∧
    fw3_print_default_chains .NAT family defs out =
      out ++ applicable_lines .NAT family fmt_chain defs.flags default_chains ∧
    fw3_print_default_chains .MANGLE family defs out =
      out ++ applicable_lines .MANGLE family fmt_chain defs.flags default_chains ∧
    fw3_print_default_chains .RAW family defs out =
      out ++ applicable_lines .RAW family fmt_chain defs.flags default_chains ∧
    ":INPUT " ++ p ++ " [0:0]" ∉
      applicable_lines table family fmt_chain flags default_chains ∧
    ":FORWARD " ++ p ++ " [0:0]" ∉
      applicable_lines table family fmt_chain flags default_chains ∧
    ":OUTPUT " ++ p ++ " [0:0]" ∉
      applicable_lines table family fmt_chain flags default_chains := by
  have hcat : ∀ c ∈ default_chains,
      (fmt_chain.pr c.name).data[1]? ≠ some 'I' ∧
      (fmt_chain.pr c.name).data[1]? ≠ some 'F' ∧
      (fmt_chain.pr c.name).data[1]? ≠ some 'O' := by
    decide
  have hall : ∀ (t : fw3_table),
      fw3_print_default_chains t family defs out =
        out ++ (if t = .FILTER then
          [":INPUT " ++ policy_name defs.policy_input ++ " [0:0]",
           ":FORWARD " ++ policy_name defs.policy_forward ++ " [0:0]",
           ":OUTPUT " ++ policy_name defs.policy_output ++ " [0:0]"]
         else []) ++ applicable_lines t family fmt_chain defs.flags default_chains := by
    intro t
    unfold fw3_print_default_chains
    rw [print_chains_fst]
    cases t <;> simp
  refine ⟨by simpa using hall .FILTER, by decide, by decide, by decide,
    by simpa using hall .NAT, by simpa using hall .MANGLE, by simpa using hall .RAW,
    ?_, ?_, ?_⟩
  · intro hm
    rw [applicable_lines_mem] at hm
    obtain ⟨c, hc, _, he⟩ := hm
    have h2 := congrArg (fun x => x.data[1]?) he
    simp only [String.data_append] at h2
    exact (hcat c hc).1 (h2.trans (by simp))
  · intro hm
    rw [applicable_lines_mem] at hm
    obtain ⟨c, hc, _, he⟩ := hm
    have h2 := congrArg (fun x => x.data[1]?) he
    simp only [String.data_append] at h2
    exact (hcat c hc).2.1 (h2.trans (by simp))
  · intro hm
    rw [applicable_lines_mem] at hm
    obtain ⟨c, hc, _, he⟩ := hm
    have h2 := congrArg (fun x => x.data[1]?) he
    simp only [String.data_append] at h2
    exact (hcat c hc).2.2 (h2.trans (by simp))

/-! ## C20: the policy lookup after loading -/

/-- With at least one section of type "defaults" the policy names looked up
for the loaded record are ACCEPT or DROP. -/
theorem policy_name_valid_of_section (state : fw3_defaults) (p : uci_package)
    (h : ∃ s ∈ p, s.type = "defaults") :
    (policy_name (fw3_load_defaults state p).1.policy_input = "ACCEPT" ∨
      policy_name (fw3_load_defaults state p).1.policy_input = "DROP") ∧
    (policy_name (fw3_load_defaults state p).1.policy_output = "ACCEPT" ∨
      policy_name (fw3_load_defaults state p).1.policy_output = "DROP") ∧
    (policy_name (fw3_load_defaults state p).1.policy_forward = "ACCEPT" ∨
      policy_name (fw3_load_defaults state p).1.policy_forward = "DROP") := by
  have hv := load_defaults_valid_of_section state p h
  have hn : ∀ t : fw3_target, (t = .ACCEPT ∨ t = .DROP) →
      (policy_name t = "ACCEPT" ∨ policy_name t = "DROP") := by
    intro t ht
    rcases ht with ht | ht <;> subst ht
    · exact Or.inl (by decide)
    · exact Or.inr (by decide)
  exact ⟨hn _ hv.1, hn _ hv.2.1, hn _ hv.2.2⟩

/-- C20 fails on the code: every target indexes inside the seven entries of
the `policy` table, but with the Defaults loaded from a package without a
"defaults" section all three lookups select the entry "(bug)", and the
base-chain lines written for table Filter name neither ACCEPT nor DROP. -/
theorem policy_lookup_selects_bug :
    policy.length = 7 ∧
    (∀ t : fw3_target, t.rank < policy.length) ∧
    policy_name (fw3_load_defaults .empty []).1.policy_input = "(bug)" ∧
    policy_name (fw3_load_defaults .empty []).1.policy_output = "(bug)" ∧
    policy_name (fw3_load_defaults .empty []).1.policy_forward = "(bug)" ∧
    (fw3_print_default_chains .FILTER .V6 (fw3_load_defaults .empty []).1 []).take 3 =
      [":INPUT (bug) [0:0]", ":FORWARD (bug) [0:0]", ":OUTPUT (bug) [0:0]"] ∧
    policy_name (fw3_load_defaults .empty pkg_no_section).1.policy_input = "(bug)" :=
  ⟨by decide, fun t => by cases t <;> decide, by decide, by decide, by decide,
   by decide, by decide⟩

end Fw3
